import Mathlib

/-!
# eLearning API: the request-authorization pipeline

A shallow embedding of the middleware of `src/middleware/tenantMiddleware.js`,
`src/middleware/authMiddleware.js` and `src/middleware/errorMiddleware.js`, of the token
endpoints of `src/routes/auth.js` and of the update handler of `src/routes/universities.js`.
A middleware is a function from the request, the response under construction and the database
to a `Result`: the request and response as the middleware leaves them, the database after its
writes, and whether it called `next()` or sent a JSON response; a handler that ends the request
returns the database, the status and the JSON body.  The persistence layer is a record of
tables (lists of rows) together with the list of operations that currently throw;
`jsonwebtoken` and `bcrypt` are parameters of the environment.
-/

namespace ELearning

/-! ## JavaScript strings -/

/-- Truthiness of a slot holding a string or `undefined`: only a non-empty string is truthy. -/
def truthy : Option String → Bool
  | some s => s != ""
  | none => false

/-- The expression `a || b` on two such slots. -/
def jsOr (a b : Option String) : Option String :=
  if truthy a then a else b

/-- The pieces of a character list between occurrences of `sep` (`String.prototype.split` with a
one-character separator). -/
def splitChars (sep : Char) : List Char → List (List Char)
  | [] => [[]]
  | c :: cs =>
    if c = sep then [] :: splitChars sep cs
    else
      match splitChars sep cs with
      | [] => [[c]]
      | h :: t => (c :: h) :: t

/-- The call `s.split(sep)` for a one-character separator. -/
def jsSplit (s : String) (sep : Char) : List String :=
  (splitChars sep s.toList).map String.mk

/-- The call `s.startsWith(p)`. -/
def jsStartsWith (s p : String) : Bool :=
  p.toList.isPrefixOf s.toList

/-- The call `s.includes(sub)`: `sub` occurs in `s` as a contiguous substring. -/
def jsIncludes (s sub : String) : Bool :=
  s.toList.tails.any (fun t => sub.toList.isPrefixOf t)

/-! ## Rows of the persistence layer -/

/-- A row of `universities` (the columns the pipeline reads). -/
structure University where
  id : String
  name : String
  name_ar : String
  code : String
  domain : String
  is_active : Bool
deriving DecidableEq, Repr

/-- A row of `users` (the columns the pipeline reads or writes). -/
structure User where
  id : String
  university_id : String
  email : String
  password : Option String
  role : String
  is_active : Bool
  last_login : Option Nat
  preferred_language : String
deriving DecidableEq, Repr

/-- A user instance loaded with its `university` association (`include: [University]`). -/
structure UserWithUniversity extends User where
  university : Option University
deriving DecidableEq, Repr

/-- A row of `courses`. -/
structure Course where
  id : String
  university_id : String
  instructor_id : String
deriving DecidableEq, Repr

/-- A row of `enrollments`. -/
structure Enrollment where
  user_id : String
  course_id : String
  status : String
deriving DecidableEq, Repr

/-- The operations of the persistence layer that the pipeline awaits. -/
inductive DbOp
  | University_findOne
  | User_findByPk
  | User_findOne
  | User_update
  | User_create
  | University_findByPk
  | University_update
  | Course_findByPk
  | Enrollment_findOne
deriving DecidableEq, Repr

/-- The database: its tables, and the operations that reject (throw) when awaited. -/
structure Db where
  universities : List University
  users : List User
  courses : List Course
  enrollments : List Enrollment
  failing : List DbOp
deriving DecidableEq, Repr

/-- Whether awaiting `op` throws. -/
def Db.fails (db : Db) (op : DbOp) : Bool :=
  db.failing.contains op

/-- The query `University.findOne({ where: { domain, is_active: true } })`; `none` is a thrown
error, `some none` is `null`. -/
def Db.University_findOne (db : Db) (domain : String) : Option (Option University) :=
  if db.fails .University_findOne then none
  else some (db.universities.find? (fun u => u.domain == domain && u.is_active))

/-- The query `User.findByPk(id)` with every column of the row; the `university` association is
loaded as well, which the refresh handler, whose query does not include it, never reads. -/
def Db.User_findByPk (db : Db) (id : Option String) : Option (Option UserWithUniversity) :=
  if db.fails .User_findByPk then none
  else
    match id with
    | none => some none
    | some i =>
      match db.users.find? (fun u => u.id == i) with
      | none => some none
      | some u =>
        some (some { toUser := u,
                     university := db.universities.find? (fun t => t.id == u.university_id) })

/-- The query of `authMiddleware`: `User.findByPk(id, { include: [{ model: University, as:
'university' }], attributes: { exclude: ['password'] } })`; the instance has no `password`. -/
def Db.User_findByPk_auth (db : Db) (id : Option String) : Option (Option UserWithUniversity) :=
  (db.User_findByPk id).map (fun found => found.map (fun user => { user with password := none }))

/-- The call `user.update({ last_login: now })`: the instance and the table after the write. -/
def Db.User_update_last_login (db : Db) (user : UserWithUniversity) (now : Nat) :
    Option (UserWithUniversity × Db) :=
  if db.fails .User_update then none
  else
    let touch : User → User :=
      fun u => if u.id == user.id then { u with last_login := some now } else u
    some ({ user with last_login := some now }, { db with users := db.users.map touch })

/-- The query `Course.findByPk(courseId)`. -/
def Db.Course_findByPk (db : Db) (courseId : String) : Option (Option Course) :=
  if db.fails .Course_findByPk then none
  else some (db.courses.find? (fun c => c.id == courseId))

/-- The query `Enrollment.findOne({ where: { user_id, course_id, status: 'enrolled' } })`. -/
def Db.Enrollment_findOne (db : Db) (user_id course_id : String) : Option (Option Enrollment) :=
  if db.fails .Enrollment_findOne then none
  else some (db.enrollments.find?
    (fun e => e.user_id == user_id && e.course_id == course_id && e.status == "enrolled"))

/-! ## Requests, responses and middleware results -/

/-- The request headers the pipeline reads (`undefined` is `none`). -/
structure Headers where
  x_university_domain : Option String
  authorization : Option String
  host : Option String
  accept_language : Option String := none
deriving DecidableEq, Repr

/-- The body fields the pipeline reads, after `express.json()` (an absent field is `none`). -/
structure Body where
  university_domain : Option String
  course_id : Option String
deriving DecidableEq, Repr

/-- The request object, with the slots the middleware attach to it. -/
structure Req where
  path : String
  headers : Headers
  params_courseId : Option String
  body : Body
  university : Option University
  universityId : Option String
  user : Option UserWithUniversity
  originalUrl : String := ""
  method : String := "GET"
deriving DecidableEq, Repr

/-- The `university` object of a login response: the attributes the login query includes. -/
structure UniversityView where
  id : String
  name : String
  name_ar : String
  code : String
  domain : String
deriving DecidableEq, Repr

/-- The `user` object of a login response (the fields of the modelled columns). -/
structure LoginUser where
  id : String
  email : String
  role : String
  preferred_language : String
  university : Option UniversityView
deriving DecidableEq, Repr

/-- The `data` object of a login response: the principal and the token pair. -/
structure LoginData where
  user : LoginUser
  token : String
  refreshToken : String
deriving DecidableEq, Repr

/-- The JSON document of `res.status(status).json({ success, message, message_ar, data })`;
`data` is `none` when the document has no such field. -/
structure Response where
  status : Nat
  success : Bool
  message : String
  message_ar : String
  data : Option LoginData := none
deriving DecidableEq, Repr

/-- How a middleware ends: it calls `next()` or it sends a response. -/
inductive Outcome
  | next
  | respond (r : Response)
deriving DecidableEq, Repr

/-- What a middleware leaves behind: the request, the response headers set so far, the database
and the outcome. -/
structure Result where
  req : Req
  resHeaders : List (String × String)
  db : Db
  outcome : Outcome
deriving DecidableEq, Repr

/-- The result of `return res.status(status).json({ success: false, message, message_ar })`:
request, headers and database as they are, `next()` not called. -/
def Result.send (req : Req) (resHeaders : List (String × String)) (db : Db) (status : Nat)
    (message message_ar : String) : Result :=
  { req := req, resHeaders := resHeaders, db := db,
    outcome := .respond { status := status, success := false, message := message,
                          message_ar := message_ar } }

/-- The result of calling `next()` with request, headers and database as they are. -/
def Result.pass (req : Req) (resHeaders : List (String × String)) (db : Db) : Result :=
  { req := req, resHeaders := resHeaders, db := db, outcome := .next }

/-- The effect of `res.setHeader(name, value)` on the headers when the call returns. -/
def setHeader (hs : List (String × String)) (name value : String) : List (String × String) :=
  (name, value) :: hs.filter (fun h => h.1 != name)

/-- A character Node accepts in a header value: a tab, or a code from 0x20 to 0x7e or from 0x80
to 0xff. -/
def validHeaderChar (c : Char) : Bool :=
  c == '\t' || (0x20 ≤ c.toNat && c.toNat ≤ 0x7e) || (0x80 ≤ c.toNat && c.toNat ≤ 0xff)

/-- Whether `res.setHeader(name, value)` returns for the string `value`; otherwise it throws
`ERR_INVALID_CHAR`. -/
def validHeaderValue (value : String) : Bool :=
  value.toList.all validHeaderChar

/-- The value of response header `name`, if set. -/
def getHeader (hs : List (String × String)) (name : String) : Option String :=
  (hs.find? (fun h => h.1 == name)).map (fun h => h.2)

/-! ## `tenantMiddleware.js` -/

/-- The constant `skipRoutes`. -/
def skipRoutes : List String := ["/health", "/api-docs", "/auth/login", "/auth/register"]

/-- The test `skipRoutes.some(route => req.path.includes(route))`. -/
def isSkipRoute (path : String) : Bool :=
  skipRoutes.any (fun route => jsIncludes path route)

/-- The subdomain step: `host.split('.')[0]` when the host is set and the label is non-empty and
neither `www` nor `api`; otherwise `undefined`. -/
def subdomainOf (host : Option String) : Option String :=
  match host with
  | none => none
  | some h =>
    if truthy (some h) then
      let subdomain := (jsSplit h '.').head?
      if truthy subdomain && subdomain != some "www" && subdomain != some "api" then subdomain
      else none
    else none

/-- The value of `universityDomain` when `tenantMiddleware` reaches its lookup: the header, else
the subdomain, else the body field. -/
def universityDomain (req : Req) : Option String :=
  let fromHeader := req.headers.x_university_domain
  let afterHost := if !truthy fromHeader then
      (match subdomainOf req.headers.host with
       | some s => some s
       | none => fromHeader)
    else fromHeader
  if !truthy afterHost && truthy req.body.university_domain then req.body.university_domain
  else afterHost

/-- The response of the `catch` of `tenantMiddleware`. -/
def tenantError (req : Req) (resHeaders : List (String × String)) (db : Db) : Result :=
  Result.send req resHeaders db 500 "Error resolving university tenant" "خطأ في تحديد الجامعة"

/-- The branch `if (universityDomain) { ... }` of `tenantMiddleware` and the `next()` after it,
for a truthy `universityDomain`: the lookup, then attach and annotate, or answer 404.  A lookup
that throws is answered by the `catch`, and so is a `res.setHeader` that throws, with what was
attached and set before the throw left in place. -/
def tenantLookup (db : Db) (req : Req) (resHeaders : List (String × String)) (domain : String) :
    Result :=
  match db.University_findOne domain with
  | none => tenantError req resHeaders db
  | some (some university) =>
    let attached : Req :=
      { req with university := some university, universityId := some university.id }
    if !validHeaderValue university.id then tenantError attached resHeaders db
    else
      let withId := setHeader resHeaders "X-University-ID" university.id
      if !validHeaderValue university.name then tenantError attached withId db
      else Result.pass attached (setHeader withId "X-University-Name" university.name) db
  | some none =>
    Result.send req resHeaders db 404 "University not found or inactive"
      "الجامعة غير موجودة أو غير نشطة"

/-- The middleware `tenantMiddleware`. -/
def tenantMiddleware (db : Db) (req : Req) (resHeaders : List (String × String)) : Result :=
  if isSkipRoute req.path then Result.pass req resHeaders db
  else
    let domain := universityDomain req
    if truthy domain then tenantLookup db req resHeaders (domain.getD "")
    else Result.pass req resHeaders db

/-- The middleware `requireTenant`. -/
def requireTenant (db : Db) (req : Req) (resHeaders : List (String × String)) : Result :=
  match req.university with
  | none => Result.send req resHeaders db 400 "University context is required"
      "سياق الجامعة مطلوب"
  | some _ => Result.pass req resHeaders db

/-- The middleware `validateTenantAccess`. -/
def validateTenantAccess (db : Db) (req : Req) (resHeaders : List (String × String)) : Result :=
  match req.user, req.university with
  | some user, some university =>
    if user.university_id != university.id && user.role != "super_admin" then
      Result.send req resHeaders db 403 "Access denied: User does not belong to this university"
        "الوصول مرفوض: المستخدم لا ينتمي لهذه الجامعة"
    else Result.pass req resHeaders db
  | _, _ => Result.pass req resHeaders db

/-! ## `authMiddleware.js` -/

/-- What `jwt.verify(token, secret)` does: it returns the decoded payload (of which the pipeline
reads `id`) or throws one of the library's errors. -/
inductive JwtResult
  | decoded (id : Option String)
  | JsonWebTokenError
  | TokenExpiredError
  | NotBeforeError
deriving DecidableEq, Repr

/-- The environment of the process: the secrets and lifetimes of `process.env` and its
`NODE_ENV`, the `jsonwebtoken` functions (`jwt.sign({ id }, secret, { expiresIn })` at the current
time and `jwt.verify token secret`), `bcrypt.compare password hash`, the salted `bcrypt.hash` of
the `beforeCreate` hook, the next value of `UUIDV4`, and the clock read by `new Date()`. -/
structure Env where
  JWT_SECRET : String
  JWT_EXPIRE : Option String
  REFRESH_TOKEN_SECRET : String
  REFRESH_TOKEN_EXPIRE : Option String
  jwtSign : String → String → String → Nat → String
  jwtVerify : String → String → JwtResult
  bcryptCompare : String → String → Bool
  now : Nat
  NODE_ENV : Option String
  bcryptHash : String → String
  uuidv4 : String

/-- The bearer token read from the `Authorization` header: `authorization.split(' ')[1]` when
the header is set and starts with `Bearer`, else `undefined`. -/
def bearerToken (authorization : Option String) : Option String :=
  match authorization with
  | none => none
  | some a =>
    if truthy (some a) && jsStartsWith a "Bearer" then (jsSplit a ' ').get? 1
    else none

/-- The response of both the missing-token branch and the inner `catch` of `authMiddleware`. -/
def notAuthorized (req : Req) (resHeaders : List (String × String)) (db : Db) : Result :=
  Result.send req resHeaders db 401 "Not authorized to access this route"
    "غير مخول للوصول إلى هذا المسار"

/-- The middleware `authMiddleware`. -/
def authMiddleware (env : Env) (db : Db) (req : Req) (resHeaders : List (String × String)) :
    Result :=
  let token := bearerToken req.headers.authorization
  if !truthy token then notAuthorized req resHeaders db
  else
    match env.jwtVerify (token.getD "") env.JWT_SECRET with
    | .decoded id =>
      match db.User_findByPk_auth id with
      | none => notAuthorized req resHeaders db
      | some none => Result.send req resHeaders db 401 "User not found" "المستخدم غير موجود"
      | some (some user) =>
        if !user.is_active then
          Result.send req resHeaders db 401 "User account is deactivated" "حساب المستخدم معطل"
        else if (match user.university with
                 | some university => !university.is_active
                 | none => false) then
          Result.send req resHeaders db 401 "University is deactivated" "الجامعة معطلة"
        else
          match db.User_update_last_login user env.now with
          | none => notAuthorized req resHeaders db
          | some (user', db') => Result.pass { req with user := some user' } resHeaders db'
    | _ => notAuthorized req resHeaders db

/-- The middleware `authorize(...roles)`. -/
def authorize (roles : List String) (db : Db) (req : Req) (resHeaders : List (String × String)) :
    Result :=
  match req.user with
  | none => notAuthorized req resHeaders db
  | some user =>
    if !roles.contains user.role then
      Result.send req resHeaders db 403
        ("User role " ++ user.role ++ " is not authorized to access this route")
        ("دور المستخدم " ++ user.role ++ " غير مخول للوصول إلى هذا المسار")
    else Result.pass req resHeaders db

/-- The middleware `checkUniversityAccess`. -/
def checkUniversityAccess (db : Db) (req : Req) (resHeaders : List (String × String)) : Result :=
  match req.user with
  | none => Result.send req resHeaders db 401 "Authentication required" "المصادقة مطلوبة"
  | some user =>
    if user.role == "super_admin" then Result.pass req resHeaders db
    else if (match req.university with
             | some university => user.university_id != university.id
             | none => false) then
      Result.send req resHeaders db 403 "Access denied: User does not belong to this university"
        "الوصول مرفوض: المستخدم لا ينتمي لهذه الجامعة"
    else Result.pass req resHeaders db

/-- The response of the `catch` of `checkCourseAccess`. -/
def courseCheckError (req : Req) (resHeaders : List (String × String)) (db : Db) : Result :=
  Result.send req resHeaders db 500 "Server error during course access check"
    "خطأ في الخادم أثناء فحص الوصول للدورة"

/-- The constant `courseId` of `checkCourseAccess`: `req.params.courseId || req.body.course_id`. -/
def courseIdOf (req : Req) : Option String :=
  jsOr req.params_courseId req.body.course_id

/-- The middleware `checkCourseAccess`. -/
def checkCourseAccess (db : Db) (req : Req) (resHeaders : List (String × String)) : Result :=
  match req.user with
  | none => Result.send req resHeaders db 401 "Authentication required" "المصادقة مطلوبة"
  | some user =>
    let courseId := courseIdOf req
    if !truthy courseId then
      Result.send req resHeaders db 400 "Course ID is required" "معرف الدورة مطلوب"
    else if ["super_admin", "university_admin"].contains user.role then
      Result.pass req resHeaders db
    else
      match db.Course_findByPk (courseId.getD "") with
      | none => courseCheckError req resHeaders db
      | some none => Result.send req resHeaders db 404 "Course not found" "الدورة غير موجودة"
      | some (some course) =>
        if user.university_id != course.university_id then
          Result.send req resHeaders db 403
            "Access denied: Course belongs to different university"
            "الوصول مرفوض: الدورة تنتمي لجامعة مختلفة"
        else if user.role == "professor" && course.instructor_id == user.id then
          Result.pass req resHeaders db
        else if user.role == "student" then
          match db.Enrollment_findOne user.id (courseId.getD "") with
          | none => courseCheckError req resHeaders db
          | some none =>
            Result.send req resHeaders db 403 "Access denied: Not enrolled in this course"
              "الوصول مرفوض: غير مسجل في هذه الدورة"
          | some (some _) => Result.pass req resHeaders db
        else Result.pass req resHeaders db

/-! ## `routes/auth.js` -/

/-- The function `generateToken`. -/
def generateToken (env : Env) (id : String) : String :=
  env.jwtSign id env.JWT_SECRET (env.JWT_EXPIRE.getD "24h") env.now

/-- The function `generateRefreshToken`. -/
def generateRefreshToken (env : Env) (id : String) : String :=
  env.jwtSign id env.REFRESH_TOKEN_SECRET (env.REFRESH_TOKEN_EXPIRE.getD "7d") env.now

/-- The method `User.prototype.validatePassword`. -/
def User.validatePassword (env : Env) (user : User) (password : String) : Bool :=
  match user.password with
  | none => false
  | some hash => if hash = "" then false else env.bcryptCompare password hash

/-- What the login handler reads of the request once the validators have run: whether
`validationResult(req)` holds errors, and the body fields `email` and `password`. -/
structure LoginInput where
  validationErrors : Bool
  email : String
  password : String
deriving DecidableEq, Repr

/-- The query `User.findOne({ where: { email, university_id }, include: [University] })` of the
login handler. -/
def Db.User_findOne (db : Db) (email university_id : String) :
    Option (Option (User × Option UniversityView)) :=
  if db.fails .User_findOne then none
  else
    match db.users.find? (fun u => u.email == email && u.university_id == university_id) with
    | none => some none
    | some u =>
      some (some (u, (db.universities.find? (fun t => t.id == u.university_id)).map
        (fun t => { id := t.id, name := t.name, name_ar := t.name_ar, code := t.code,
                    domain := t.domain })))

/-- The response of the `catch` of the login handler. -/
def loginError (req : Req) (resHeaders : List (String × String)) (db : Db) : Result :=
  Result.send req resHeaders db 500 "Server error during login"
    "خطأ في الخادم أثناء تسجيل الدخول"

/-- The handler of `POST /login` (after `requireTenant` and the validators). -/
def loginHandler (env : Env) (input : LoginInput) (db : Db) (req : Req)
    (resHeaders : List (String × String)) : Result :=
  if input.validationErrors then
    Result.send req resHeaders db 400 "Validation failed" "فشل التحقق"
  else
    match req.university with
    | none => loginError req resHeaders db
    | some university =>
      match db.User_findOne input.email university.id with
      | none => loginError req resHeaders db
      | some none =>
        Result.send req resHeaders db 401 "Invalid email or password"
          "بريد إلكتروني أو كلمة مرور غير صحيحة"
      | some (some (user, view)) =>
        if !user.is_active then
          Result.send req resHeaders db 401 "Account is deactivated" "الحساب معطل"
        else if !user.validatePassword env input.password then
          Result.send req resHeaders db 401 "Invalid email or password"
            "بريد إلكتروني أو كلمة مرور غير صحيحة"
        else
          match db.User_update_last_login { toUser := user, university := none } env.now with
          | none => loginError req resHeaders db
          | some (_, db') =>
            { req := req, resHeaders := resHeaders, db := db',
              outcome := .respond
                { status := 200, success := true, message := "Login successful",
                  message_ar := "تم تسجيل الدخول بنجاح",
                  data := some
                    { user := { id := user.id, email := user.email, role := user.role,
                                preferred_language := user.preferred_language,
                                university := view },
                      token := generateToken env user.id,
                      refreshToken := generateRefreshToken env user.id } } }

/-- A handler that ends the request: the database it leaves, the status and the JSON body. -/
structure Handled (β : Type) where
  db : Db
  status : Nat
  body : β
deriving DecidableEq, Repr

/-- The `data` object of a refresh response. -/
structure TokenPair where
  token : String
  refreshToken : String
deriving DecidableEq, Repr

/-- The JSON body of a response of `POST /refresh`. -/
structure RefreshBody where
  success : Bool
  message : String
  message_ar : String
  data : Option TokenPair
deriving DecidableEq, Repr

/-- The response of the `!user || !user.is_active` branch and of the `catch` of the refresh
handler. -/
def invalidRefreshToken (db : Db) : Handled RefreshBody :=
  { db := db, status := 401,
    body := { success := false, message := "Invalid refresh token",
              message_ar := "رمز تحديث غير صالح", data := none } }

/-- The handler of `POST /refresh`, on the body field `refreshToken`. -/
def refreshHandler (env : Env) (db : Db) (refreshToken : Option String) : Handled RefreshBody :=
  if !truthy refreshToken then
    { db := db, status := 401,
      body := { success := false, message := "Refresh token is required",
                message_ar := "رمز التحديث مطلوب", data := none } }
  else
    match env.jwtVerify (refreshToken.getD "") env.REFRESH_TOKEN_SECRET with
    | .decoded id =>
      match db.User_findByPk id with
      | none => invalidRefreshToken db
      | some none => invalidRefreshToken db
      | some (some user) =>
        if !user.is_active then invalidRefreshToken db
        else
          { db := db, status := 200,
            body := { success := true, message := "Token refreshed successfully",
                      message_ar := "تم تحديث الرمز بنجاح",
                      data := some { token := generateToken env user.id,
                                     refreshToken := generateRefreshToken env user.id } } }
    | _ => invalidRefreshToken db

/-- What the register handler reads of the request once the validators have run: whether the
validators of `email`, `password`, `first_name` and `last_name` recorded an error, and the body
fields `email`, `password` and `role` (an absent `role` is `none`). -/
structure RegisterInput where
  otherValidationErrors : Bool
  email : String
  password : String
  role : Option String
deriving DecidableEq, Repr

/-- The role list of the validator `body('role').isIn([...])`. -/
def registerRoles : List String := ["student", "professor", "teaching_assistant"]

/-- The validator `body('role').isIn(registerRoles)`: an absent field is checked as the empty
string. -/
def roleIsIn (role : Option String) : Bool :=
  registerRoles.contains (role.getD "")

/-- The test `!validationResult(req).isEmpty()` of the register handler. -/
def RegisterInput.hasErrors (input : RegisterInput) : Bool :=
  input.otherValidationErrors || !roleIsIn input.role

/-- The `university` object of a register response. -/
structure RegisteredUniversity where
  id : String
  name : String
  name_ar : String
deriving DecidableEq, Repr

/-- The `user` object of a register response (the fields of the modelled columns). -/
structure RegisteredUser where
  id : String
  email : String
  role : String
  university : RegisteredUniversity
deriving DecidableEq, Repr

/-- The `data` object of a register response. -/
structure RegisterData where
  user : RegisteredUser
  token : String
  refreshToken : String
deriving DecidableEq, Repr

/-- The JSON body of a response of `POST /register`. -/
structure RegisterBody where
  success : Bool
  message : String
  message_ar : String
  data : Option RegisterData
deriving DecidableEq, Repr

/-- A response of the register route without `data`. -/
def registerFail (db : Db) (status : Nat) (message message_ar : String) : Handled RegisterBody :=
  { db := db, status := status,
    body := { success := false, message := message, message_ar := message_ar, data := none } }

/-- The query `User.findOne({ where: { email } })` of the register handler. -/
def Db.User_findOneByEmail (db : Db) (email : String) : Option (Option User) :=
  if db.fails .User_findOne then none
  else some (db.users.find? (fun u => u.email == email))

/-- The call `User.create({ university_id, email, password, role, ... })`: the row with the
column defaults and the password hashed by the `beforeCreate` hook, and the table after the
insert. -/
def Db.User_create (env : Env) (db : Db) (university_id email password role : String) :
    Option (User × Db) :=
  if db.fails .User_create then none
  else
    let user : User :=
      { id := env.uuidv4, university_id := university_id, email := email,
        password := if password = "" then some password else some (env.bcryptHash password),
        role := role, is_active := true, last_login := none, preferred_language := "ar" }
    some (user, { db with users := db.users ++ [user] })

/-- The handler of `POST /register`, after `requireTenant` and the validators. -/
def registerHandler (env : Env) (input : RegisterInput) (db : Db) (university : Option University) :
    Handled RegisterBody :=
  if input.hasErrors then registerFail db 400 "Validation failed" "فشل التحقق"
  else
    match db.User_findOneByEmail input.email with
    | none => registerFail db 500 "Server error during registration" "خطأ في الخادم أثناء التسجيل"
    | some (some _) =>
      registerFail db 409 "User already exists with this email"
        "المستخدم موجود بالفعل بهذا البريد الإلكتروني"
    | some none =>
      match university with
      | none => registerFail db 500 "Server error during registration" "خطأ في الخادم أثناء التسجيل"
      | some university =>
        match db.User_create env university.id input.email input.password
            (input.role.getD "") with
        | none =>
          registerFail db 500 "Server error during registration" "خطأ في الخادم أثناء التسجيل"
        | some (user, db') =>
          { db := db', status := 201,
            body := { success := true, message := "User registered successfully",
                      message_ar := "تم تسجيل المستخدم بنجاح",
                      data := some
                        { user := { id := user.id, email := user.email, role := user.role,
                                    university := { id := university.id, name := university.name,
                                                    name_ar := university.name_ar } },
                          token := generateToken env user.id,
                          refreshToken := generateRefreshToken env user.id } } }

/-- The route `POST /register`: `requireTenant`, the validators (which only record errors) and
the handler. -/
def registerRoute (env : Env) (input : RegisterInput) (db : Db) (req : Req) :
    Handled RegisterBody :=
  match req.university with
  | none => registerFail db 400 "University context is required" "سياق الجامعة مطلوب"
  | some university => registerHandler env input db (some university)

/-! ## `routes/universities.js` -/

/-- A value that is not an object (`undefined` included, for a body built in code). -/
inductive JsScalar
  | undefined
  | null
  | bool (b : Bool)
  | num (n : Int)
  | str (s : String)
deriving DecidableEq, Repr

/-- A property value of a request body: a scalar, or an object with scalar properties. -/
inductive JsVal
  | scalar (v : JsScalar)
  | object (props : List (String × JsScalar))
deriving DecidableEq, Repr

/-- The value `undefined`. -/
def JsVal.undefined : JsVal := .scalar .undefined

/-- The own properties of an object, in the order of `Object.keys`.  The request body is such a
list: `JSON.parse` gives every key of the text, `__proto__` included, as an own property. -/
abbrev JsObject := List (String × JsVal)

/-- The expression `obj[field]` for an own property: its value, `undefined` when there is
none. -/
def JsObject.get (obj : JsObject) (field : String) : JsVal :=
  match obj.find? (fun kv => kv.1 == field) with
  | some kv => kv.2
  | none => JsVal.undefined

/-- The definition of the own property `field`: an existing property keeps its place, a new one
goes last. -/
def JsObject.set (obj : JsObject) (field : String) (value : JsVal) : JsObject :=
  if obj.any (fun kv => kv.1 == field) then
    obj.map (fun kv => if kv.1 == field then (field, value) else kv)
  else obj ++ [(field, value)]

/-- The prototype of an object built in the handler: `Object.prototype`, `null`, or an object
taken from the request body. -/
inductive Prototype
  | objectPrototype
  | null
  | object (props : List (String × JsScalar))
deriving DecidableEq, Repr

/-- The object `updateData`: its own properties and its prototype. -/
structure UpdateData where
  own : JsObject
  proto : Prototype
deriving DecidableEq, Repr

/-- The object literal `{}`. -/
def UpdateData.empty : UpdateData :=
  { own := [], proto := .objectPrototype }

/-- The assignment `updateData[field] = value`.  For `__proto__` on an object that inherits from
`Object.prototype` it runs the inherited setter: an object or `null` becomes the prototype, any
other value is ignored, and no own property is created.  Every other assignment defines an own
property. -/
def UpdateData.assign (data : UpdateData) (field : String) (value : JsVal) : UpdateData :=
  if field == "__proto__" && data.proto != Prototype.null then
    match value with
    | .object props => { data with proto := .object props }
    | .scalar .null => { data with proto := .null }
    | .scalar _ => data
  else { data with own := data.own.set field value }

/-- The enumerable properties of `updateData` as `for...in` walks them: the own ones, then those
inherited from a prototype taken from the body that no own property shadows. -/
def UpdateData.enumerable (data : UpdateData) : JsObject :=
  match data.proto with
  | .object props =>
    data.own ++ (props.filter (fun kv => !data.own.any (fun o => o.1 == kv.1))).map
      (fun kv => (kv.1, JsVal.scalar kv.2))
  | _ => data.own

/-- The fields a principal who is not a super-admin may not update. -/
def criticalFields : List String := ["code", "domain", "is_active", "subscription_plan"]

/-- The constant `allowedFields` of the update handler. -/
def allowedFields (role : String) (body : JsObject) : List String :=
  if role == "super_admin" then body.map (fun kv => kv.1)
  else (body.map (fun kv => kv.1)).filter (fun field => !criticalFields.contains field)

/-- The object `updateData` of the update handler after the `forEach`. -/
def updateData (role : String) (body : JsObject) : UpdateData :=
  (allowedFields role body).foldl
    (fun data field =>
      if body.get field != JsVal.undefined then data.assign field (body.get field) else data)
    UpdateData.empty

/-- The query `University.findByPk(id)`. -/
def Db.University_findByPk (db : Db) (id : String) : Option (Option University) :=
  if db.fails .University_findByPk then none
  else some (db.universities.find? (fun u => u.id == id))

/-- The call `university.update(updateData)`: `write` is what Sequelize makes of the payload on
the row (`none` when it rejects it); the row is replaced in the table. -/
def Db.University_update (db : Db) (write : University → UpdateData → Option University)
    (university : University) (data : UpdateData) : Option (University × Db) :=
  if db.fails .University_update then none
  else
    match write university data with
    | none => none
    | some university' =>
      let replace : University → University :=
        fun u => if u.id == university.id then university' else u
      some (university', { db with universities := db.universities.map replace })

/-- The JSON body of a response of `PUT /universities/:id`. -/
structure UpdateBody where
  success : Bool
  message : String
  message_ar : String
  university : Option University
deriving DecidableEq, Repr

/-- What the update handler does: the response, and the payload it passed to
`university.update` when it reached that call. -/
structure Updated where
  response : Handled UpdateBody
  payload : Option UpdateData
deriving DecidableEq, Repr

/-- A response of the update handler that applies nothing. -/
def updateFail (db : Db) (status : Nat) (message message_ar : String)
    (payload : Option UpdateData) : Updated :=
  { response := { db := db, status := status,
                  body := { success := false, message := message, message_ar := message_ar,
                            university := none } },
    payload := payload }

/-- The handler of `PUT /universities/:id`, after `authMiddleware` and
`authorize('super_admin', 'university_admin')`, for the principal `user`. -/
def updateUniversityHandler (write : University → UpdateData → Option University) (db : Db)
    (user : UserWithUniversity) (id : String) (body : JsObject) : Updated :=
  match db.University_findByPk id with
  | none => updateFail db 500 "Server error" "خطأ في الخادم" none
  | some none => updateFail db 404 "University not found" "الجامعة غير موجودة" none
  | some (some university) =>
    if user.role == "university_admin" && user.university_id != university.id then
      updateFail db 403 "Access denied" "الوصول مرفوض" none
    else
      let data := updateData user.role body
      match db.University_update write university data with
      | none => updateFail db 500 "Server error" "خطأ في الخادم" (some data)
      | some (university', db') =>
        { response := { db := db', status := 200,
                        body := { success := true, message := "University updated successfully",
                                  message_ar := "تم تحديث الجامعة بنجاح",
                                  university := some university' } },
          payload := some data }

/-! ## `errorMiddleware.js` -/

/-- An item of `err.errors` (the properties the handler reads). -/
structure ErrorItem where
  path : Option String
  message : String
deriving DecidableEq, Repr

/-- The error object passed to `errorHandler` (the properties the handler reads). -/
structure Err where
  name : String
  message : String
  code : Option String
  kind : Option String
  errors : List ErrorItem
  stack : Option String
deriving DecidableEq, Repr

/-- The object literal `arabicMessages`. -/
def arabicMessages : List (String × String) :=
  [("Not Found", "غير موجود"),
   ("Resource not found", "المورد غير موجود"),
   ("Validation Error", "خطأ في التحقق"),
   ("Resource already exists", "المورد موجود بالفعل"),
   ("Invalid reference to related resource", "مرجع غير صالح للمورد ذي الصلة"),
   ("Invalid token", "رمز غير صالح"),
   ("Token expired", "انتهت صلاحية الرمز"),
   ("File too large", "الملف كبير جداً"),
   ("Too many files", "ملفات كثيرة جداً"),
   ("Unexpected file field", "حقل ملف غير متوقع"),
   ("Unauthorized", "غير مخول"),
   ("Forbidden", "محظور"),
   ("Internal Server Error", "خطأ داخلي في الخادم")]

/-- The names of the function-valued properties an object literal inherits from
`Object.prototype`. -/
def objectPrototypeFunctions : List String :=
  ["constructor", "toString", "toLocaleString", "valueOf", "hasOwnProperty", "isPrototypeOf",
   "propertyIsEnumerable", "__defineGetter__", "__defineSetter__", "__lookupGetter__",
   "__lookupSetter__"]

/-- What `arabicMessages[message]` can be when it is truthy: a text of the table, or, through
the prototype chain, `Object.prototype` itself (for `__proto__`) or one of its functions. -/
inductive ArabicValue
  | text (s : String)
  | objectPrototype
  | inheritedFunction
deriving DecidableEq, Repr

/-- The function `getArabicMessage`: `arabicMessages[message] || null` (`none` is `null`). -/
def getArabicMessage (message : String) : Option ArabicValue :=
  match arabicMessages.find? (fun kv => kv.1 == message) with
  | some kv => if truthy (some kv.2) then some (.text kv.2) else none
  | none =>
    if message == "__proto__" then some .objectPrototype
    else if objectPrototypeFunctions.contains message then some .inheritedFunction
    else none

/-- The value of the field `message_ar` in the JSON text: a string, or the object `{}`. -/
inductive MessageAr
  | str (s : String)
  | emptyObject
deriving DecidableEq, Repr

/-- What `JSON.stringify` makes of the property `message_ar`: a function-valued property is left
out, `Object.prototype` is written as `{}`. -/
def ArabicValue.toJson : ArabicValue → Option MessageAr
  | .text s => some (.str s)
  | .objectPrototype => some .emptyObject
  | .inheritedFunction => none

/-- An item of the `errors` array of a validation response; an `undefined` field is left out of
the JSON text. -/
structure FieldError where
  field : Option String
  message : String
deriving DecidableEq, Repr

/-- The JSON body `errorHandler` sends; `none` is a field the JSON text does not have. -/
structure ErrorBody where
  success : Bool
  message : String
  message_ar : Option MessageAr
  errors : Option (List FieldError)
  field : Option String
  stack : Option String
  timestamp : Option Nat
  path : Option String
  method : Option String
deriving DecidableEq, Repr

/-- The property `stack` of the three early responses:
`process.env.NODE_ENV === 'production' ? undefined : err.stack`. -/
def earlyStack (env : Env) (err : Err) : Option String :=
  if env.NODE_ENV == some "production" then none else err.stack

/-- The constant `language` of `errorHandler`:
`req.user?.preferred_language || req.headers['accept-language']?.includes('ar') ? 'ar' : 'en'`,
in which `||` binds tighter than `? :`. -/
def errorLanguage (req : Req) : String :=
  let preferred : Bool :=
    match req.user with
    | some user => truthy (some user.preferred_language)
    | none => false
  let accepts : Bool :=
    match req.headers.accept_language with
    | some h => jsIncludes h "ar"
    | none => false
  if preferred || accepts then "ar" else "en"

/-- The status and message of `errorHandler` when it reaches its log line: the initial values,
then the `CastError`, token and upload tests in the order of the source. -/
def classify (err : Err) (statusCode : Nat) : Nat × String :=
  let s0 : Nat × String := (if statusCode == 200 then 500 else statusCode, err.message)
  let s1 := if err.name == "CastError" && err.kind == some "ObjectId" then
    (404, "Resource not found") else s0
  let s2 := if err.name == "JsonWebTokenError" then (401, "Invalid token") else s1
  let s3 := if err.name == "TokenExpiredError" then (401, "Token expired") else s2
  let s4 := if err.code == some "LIMIT_FILE_SIZE" then (400, "File too large") else s3
  let s5 := if err.code == some "LIMIT_FILE_COUNT" then (400, "Too many files") else s4
  if err.code == some "LIMIT_UNEXPECTED_FILE" then (400, "Unexpected file field") else s5

/-- The middleware `errorHandler`, on the error, the request and `res.statusCode`: the status
and the JSON body it sends. -/
def errorHandler (env : Env) (err : Err) (req : Req) (statusCode : Nat) : Nat × ErrorBody :=
  if err.name == "SequelizeValidationError" then
    (400, { success := false, message := "Validation Error", message_ar := none,
            errors := some (err.errors.map (fun e => { field := e.path, message := e.message })),
            field := none, stack := earlyStack env err, timestamp := none, path := none,
            method := none })
  else if err.name == "SequelizeUniqueConstraintError" then
    (409, { success := false, message := "Resource already exists", message_ar := none,
            errors := none,
            field := jsOr (err.errors.head?.bind (fun e => e.path)) (some "unknown"),
            stack := earlyStack env err, timestamp := none, path := none, method := none })
  else if err.name == "SequelizeForeignKeyConstraintError" then
    (400, { success := false, message := "Invalid reference to related resource",
            message_ar := none, errors := none, field := none, stack := earlyStack env err,
            timestamp := none, path := none, method := none })
  else
    let sm := classify err statusCode
    let language := errorLanguage req
    (sm.1, { success := false, message := sm.2,
             message_ar := if language == "ar" then
                 (getArabicMessage sm.2).bind ArabicValue.toJson else none,
             errors := none, field := none,
             stack := if env.NODE_ENV == some "development" then err.stack else none,
             timestamp := some env.now, path := some req.originalUrl,
             method := some req.method })

/-- The middleware `notFound`: the status it sets and the error it passes to `next`. -/
def notFound (req : Req) : Nat × Err :=
  (404, { name := "Error", message := "Not Found - " ++ req.originalUrl, code := none,
          kind := none, errors := [], stack := some ("Error: Not Found - " ++ req.originalUrl) })

/-! ## `app.js`: the middleware chains -/

/-- Express runs the next middleware of a chain only when the previous one called `next()`. -/
def Result.andThen (r : Result) (m : Db → Req → List (String × String) → Result) : Result :=
  match r.outcome with
  | .next => m r.db r.req r.resHeaders
  | .respond _ => r

/-- The chain in front of the handlers of a protected router: `app.use(tenantMiddleware)`, then
`apiRouter.use('/users', authMiddleware, userRoutes)` and its eight siblings.  The outcome
`next` means the route handler runs. -/
def protectedChain (env : Env) (db : Db) (req : Req) (resHeaders : List (String × String)) :
    Result :=
  (tenantMiddleware db req resHeaders).andThen (authMiddleware env)

/-- The chain of `POST /api/v1/auth/login`: `app.use(tenantMiddleware)`, then `requireTenant`,
the validators (which only record errors) and the handler. -/
def loginChain (env : Env) (input : LoginInput) (db : Db) (req : Req)
    (resHeaders : List (String × String)) : Result :=
  ((tenantMiddleware db req resHeaders).andThen requireTenant).andThen (loginHandler env input)

/-! ## Conditions in the words of the specification -/

/-- The specification's condition "the Host is absent or its first dot-separated label is empty,
`www` or `api`". -/
def specNoHostCandidate (host : Option String) : Bool :=
  match host with
  | none => true
  | some h =>
    match (jsSplit h '.').head? with
    | some label => label == "" || label == "www" || label == "api"
    | none => true

/-- The specification's persistence-layer failure kinds: Sequelize validation, uniqueness and
foreign-key errors. -/
def isPersistenceError (err : Err) : Bool :=
  err.name == "SequelizeValidationError" || err.name == "SequelizeUniqueConstraintError" ||
    err.name == "SequelizeForeignKeyConstraintError"

/-- The specification's token failure kinds. -/
def isTokenError (err : Err) : Bool :=
  err.name == "JsonWebTokenError" || err.name == "TokenExpiredError"

/-- The specification's upload failure kinds: the three `LIMIT_` codes. -/
def isUploadError (err : Err) : Bool :=
  err.code == some "LIMIT_FILE_SIZE" || err.code == some "LIMIT_FILE_COUNT" ||
    err.code == some "LIMIT_UNEXPECTED_FILE"

/-- An error of one of the kinds `errorHandler` recognises by name or code. -/
def isClassified (err : Err) : Bool :=
  isPersistenceError err || isTokenError err || isUploadError err ||
    (err.name == "CastError" && err.kind == some "ObjectId")

/-! ## Sample data -/

/-- An active university. -/
def uniA : University :=
  { id := "u-A", name := "University A", name_ar := "الجامعة أ", code := "UNIA",
    domain := "uniA", is_active := true }

/-- A deactivated university. -/
def uniB : University :=
  { id := "u-B", name := "University B", name_ar := "الجامعة ب", code := "UNIB",
    domain := "uniB", is_active := false }

/-- A second active university. -/
def uniC : University :=
  { id := "u-C", name := "University C", name_ar := "الجامعة ج", code := "UNIC",
    domain := "uniC", is_active := true }

/-- An active university whose `name` is written in Arabic. -/
def uniD : University :=
  { id := "u-D", name := "جامعة د", name_ar := "جامعة د", code := "UNID",
    domain := "uniD", is_active := true }

/-- An active student of `uniA`. -/
def alice : User :=
  { id := "alice", university_id := "u-A", email := "alice@unia.edu", password := some "h1",
    role := "student", is_active := true, last_login := none, preferred_language := "ar" }

/-- A deactivated student of `uniA`. -/
def bob : User :=
  { id := "bob", university_id := "u-A", email := "bob@unia.edu", password := some "h2",
    role := "student", is_active := false, last_login := none, preferred_language := "en" }

/-- An active professor of the deactivated `uniB`. -/
def carol : User :=
  { id := "carol", university_id := "u-B", email := "carol@unib.edu", password := some "h3",
    role := "professor", is_active := true, last_login := none, preferred_language := "en" }

/-- An active professor of `uniA` who teaches no course. -/
def dave : User :=
  { id := "dave", university_id := "u-A", email := "dave@unia.edu", password := some "h5",
    role := "professor", is_active := true, last_login := none, preferred_language := "en" }

/-- An active dean of `uniA`. -/
def erin : User :=
  { id := "erin", university_id := "u-A", email := "erin@unia.edu", password := some "h6",
    role := "dean", is_active := true, last_login := none, preferred_language := "ar" }

/-- A super-admin attached to `uniA`. -/
def root : User :=
  { id := "root", university_id := "u-A", email := "root@unia.edu", password := some "h4",
    role := "super_admin", is_active := true, last_login := none, preferred_language := "en" }

/-- A database holding the sample rows, every operation working. -/
def sampleDb : Db :=
  { universities := [uniA, uniB, uniC], users := [alice, bob, carol, dave, erin, root],
    courses := [{ id := "c1", university_id := "u-A", instructor_id := "erin" }],
    enrollments := [], failing := [] }

/-- The sample database with the row of `uniD` added. -/
def sampleDbWithUniD : Db :=
  { sampleDb with universities := [uniA, uniB, uniC, uniD] }

/-- The sample database with the `last_login` write rejecting. -/
def sampleDbWriteDown : Db :=
  { sampleDb with failing := [DbOp.User_update] }

/-- A request for course `c1` by the given principal (path parameter `courseId`). -/
def courseReq (user : User) : Req :=
  { path := "/api/v1/courses/c1/lectures",
    headers := { x_university_domain := none, authorization := none, host := none },
    params_courseId := some "c1", body := { university_domain := none, course_id := none },
    university := none, universityId := none,
    user := some { toUser := user, university := none } }

/-- A request with nothing set but its path. -/
def blankReq (path : String) : Req :=
  { path := path,
    headers := { x_university_domain := none, authorization := none, host := none },
    params_courseId := none, body := { university_domain := none, course_id := none },
    university := none, universityId := none, user := none }

/-- A stand-in for `jsonwebtoken` on the sample tokens: the token signed for `id` under `secret`
is the text `secret:id`, and `secret:id:expired` is such a token past its expiry.  Verification
under another secret, or of any other text, fails with `JsonWebTokenError`. -/
def sampleSign (id secret _expiresIn : String) (_now : Nat) : String :=
  secret ++ ":" ++ id

/-- The verifier that goes with `sampleSign`. -/
def sampleVerify (token secret : String) : JwtResult :=
  match jsSplit token ':' with
  | [s, id] => if s = secret then JwtResult.decoded (some id) else JwtResult.JsonWebTokenError
  | [s, _, e] =>
    if s = secret ∧ e = "expired" then JwtResult.TokenExpiredError
    else JwtResult.JsonWebTokenError
  | _ => JwtResult.JsonWebTokenError

/-- An environment with the sample signer and verifier; the password hash `h1` stands for the
password `pw-h1`, and so on. -/
def sampleEnv : Env :=
  { JWT_SECRET := "s3cret", JWT_EXPIRE := none, REFRESH_TOKEN_SECRET := "r3fresh",
    REFRESH_TOKEN_EXPIRE := none, jwtSign := sampleSign, jwtVerify := sampleVerify,
    bcryptCompare := fun password hash => password == "pw-" ++ hash, now := 1000,
    NODE_ENV := some "production",
    bcryptHash := fun password => (String.mk (password.toList.drop 3)),
    uuidv4 := "fresh-id" }

/-- A request to a protected route carrying the given `Authorization` header. -/
def bearerReq (authorization : Option String) : Req :=
  { blankReq "/api/v1/courses" with
    headers := { x_university_domain := none, authorization := authorization, host := none } }

/-- An error thrown by `jsonwebtoken` for an expired token. -/
def expiredError : Err :=
  { name := "TokenExpiredError", message := "jwt expired", code := none, kind := none,
    errors := [], stack := some "TokenExpiredError: jwt expired" }

/-- An error thrown by `jsonwebtoken` for a malformed token. -/
def malformedError : Err :=
  { name := "JsonWebTokenError", message := "jwt malformed", code := none, kind := none,
    errors := [], stack := some "JsonWebTokenError: jwt malformed" }

/-- A Sequelize validation error with two items. -/
def validationError : Err :=
  { name := "SequelizeValidationError", message := "Validation error: bad email", code := none,
    kind := none,
    errors := [{ path := some "email", message := "bad email" },
               { path := some "name", message := "too short" }],
    stack := some "SequelizeValidationError: Validation error" }

/-- A request to an unknown route, with nobody attached and no `Accept-Language`. -/
def unknownReq : Req :=
  { blankReq "/api/v1/nothing" with originalUrl := "/api/v1/nothing?x=1", method := "GET" }

/-- A request by the active professor `dave`, who prefers `en`, with `Accept-Language: en-US`. -/
def daveReq : Req :=
  { blankReq "/api/v1/courses" with
    headers := { x_university_domain := none, authorization := some "Bearer bad", host := none,
                 accept_language := some "en-US" },
    user := some { toUser := dave, university := some uniA },
    originalUrl := "/api/v1/courses", method := "GET" }

/-- An active university admin of `uniA`. -/
def frank : User :=
  { id := "frank", university_id := "u-A", email := "frank@unia.edu", password := some "h7",
    role := "university_admin", is_active := true, last_login := none,
    preferred_language := "en" }

/-- A stand-in for Sequelize's `update`, which walks the payload with `for...in`: among the
enumerable properties, inherited ones included, it takes over a string `name`, a string `code`
and a boolean `is_active`. -/
def sampleWrite (university : University) (data : UpdateData) : Option University :=
  let props := data.enumerable
  let name := match JsObject.get props "name" with
    | JsVal.scalar (JsScalar.str s) => s
    | _ => university.name
  let code := match JsObject.get props "code" with
    | JsVal.scalar (JsScalar.str s) => s
    | _ => university.code
  let is_active := match JsObject.get props "is_active" with
    | JsVal.scalar (JsScalar.bool b) => b
    | _ => university.is_active
  some { university with name := name, code := code, is_active := is_active }

/-- An update body that names a harmless field, three critical fields and an `undefined`. -/
def sampleUpdate : JsObject :=
  [("name", JsVal.scalar (JsScalar.str "University Alpha")),
   ("code", JsVal.scalar (JsScalar.str "ALPHA")),
   ("domain", JsVal.scalar (JsScalar.str "alpha")),
   ("is_active", JsVal.scalar (JsScalar.bool false)),
   ("phone", JsVal.undefined)]

/-- The body of the JSON text
`{"__proto__":{"code":"EVIL","is_active":false},"name":"University Alpha"}`. -/
def protoUpdate : JsObject :=
  [("__proto__", JsVal.object [("code", JsScalar.str "EVIL"), ("is_active", JsScalar.bool false)]),
   ("name", JsVal.scalar (JsScalar.str "University Alpha"))]

/-! ## Basic facts -/

theorem truthy_some_iff (s : String) : truthy (some s) = true ↔ s ≠ "" := by
  simp [truthy]

theorem truthy_eq_false_iff (o : Option String) : truthy o = false ↔ o = none ∨ o = some "" := by
  cases o <;> simp [truthy]

/-! ## The course check -/

/-- C11: for a principal whose role is `super_admin` or `university_admin` and a non-empty course
identifier, `checkCourseAccess` calls `next()` and changes nothing, for every database: whatever
the `courses` and `enrollments` tables hold, and also when the course and enrollment queries
would throw, so neither query is performed. -/
theorem checkCourseAccess_admin_bypass (db : Db) (req : Req) (hs : List (String × String))
    (user : UserWithUniversity) (huser : req.user = some user)
    (hrole : user.role = "super_admin" ∨ user.role = "university_admin")
    (hid : truthy (courseIdOf req) = true) :
    checkCourseAccess db req hs = Result.pass req hs db ∧
      ∀ db' : Db, (checkCourseAccess db' req hs).outcome = (checkCourseAccess db req hs).outcome
        ∧ (checkCourseAccess db' req hs).outcome = Outcome.next := by
  have key : ∀ d : Db, checkCourseAccess d req hs = Result.pass req hs d := by
    intro d
    rcases hrole with h | h <;> simp [checkCourseAccess, huser, hid, h]
  refine ⟨key db, fun db' => ?_⟩
  rw [key db', key db]
  exact ⟨rfl, rfl⟩

/-- C11, at a concrete input: a super-admin asking for a course that does not exist, with the
course query rejecting. -/
theorem checkCourseAccess_admin_bypass_witness :
    checkCourseAccess { sampleDb with failing := [DbOp.Course_findByPk] }
        { blankReq "/api/v1/courses/nope" with
          params_courseId := some "nope", user := some { toUser := root, university := none } } []
      = Result.pass
        { blankReq "/api/v1/courses/nope" with
          params_courseId := some "nope", user := some { toUser := root, university := none } } []
        { sampleDb with failing := [DbOp.Course_findByPk] } :=
  (checkCourseAccess_admin_bypass _ _ [] { toUser := root, university := none } rfl
    (Or.inl rfl) (by decide)).1

/-- C12: for an authenticated principal of any role, when neither the path parameter `courseId`
nor the body field `course_id` holds a non-empty value (absent included), `checkCourseAccess`
answers 400 `Course ID is required`, leaves request and database as they were and does not call
`next()`; when the path parameter is present (a non-empty string, as a route parameter is), it
is the `courseId` of the lookups whatever the body holds, and the outcome does not depend on the
body field. -/
theorem checkCourseAccess_requires_course_id (db : Db) (req : Req) (hs : List (String × String))
    (user : UserWithUniversity) (huser : req.user = some user) :
    (truthy req.params_courseId = false → truthy req.body.course_id = false →
        checkCourseAccess db req hs
          = Result.send req hs db 400 "Course ID is required" "معرف الدورة مطلوب") ∧
      (∀ p : String, req.params_courseId = some p → p ≠ "" →
        courseIdOf req = some p ∧
        ∀ b : Option String,
          (checkCourseAccess db { req with body := { req.body with course_id := b } } hs).outcome
            = (checkCourseAccess db req hs).outcome) := by
  constructor
  · intro hp hb
    simp [checkCourseAccess, huser, courseIdOf, jsOr, hp, hb, Result.send]
  · intro p hp hne
    have hid : courseIdOf req = some p := by simp [courseIdOf, jsOr, hp, truthy, hne]
    refine ⟨hid, fun b => ?_⟩
    have hid' : courseIdOf { req with body := { req.body with course_id := b } } = some p := by
      simp [courseIdOf, jsOr, hp, truthy, hne]
    simp only [checkCourseAccess, huser, hid, hid']
    repeat' split
    all_goals simp_all [Result.send, Result.pass, courseCheckError]

/-- C12, at a concrete input: a super-admin sending neither a path parameter nor a body field. -/
theorem checkCourseAccess_requires_course_id_witness :
    checkCourseAccess sampleDb
        { blankReq "/api/v1/courses" with user := some { toUser := root, university := none } } []
      = Result.send
        { blankReq "/api/v1/courses" with user := some { toUser := root, university := none } } []
        sampleDb 400 "Course ID is required" "معرف الدورة مطلوب" :=
  (checkCourseAccess_requires_course_id sampleDb _ [] { toUser := root, university := none }
    rfl).1 rfl rfl

/-! ## Tenant resolution -/

theorem jsIncludes_iff (s sub : String) :
    jsIncludes s sub = true ↔ sub.toList <:+: s.toList := by
  simp only [jsIncludes, List.any_eq_true, List.mem_tails, List.isPrefixOf_iff_prefix]
  rw [List.infix_iff_prefix_suffix]
  constructor
  · rintro ⟨t, ht, hp⟩
    exact ⟨t, hp, ht⟩
  · rintro ⟨t, hp, ht⟩
    exact ⟨t, ht, hp⟩

theorem isSkipRoute_iff (path : String) :
    isSkipRoute path = true ↔ ∃ r ∈ skipRoutes, r.toList <:+: path.toList := by
  simp only [isSkipRoute, List.any_eq_true, jsIncludes_iff]

theorem splitChars_ne_nil (sep : Char) (cs : List Char) : splitChars sep cs ≠ [] := by
  cases cs with
  | nil => simp [splitChars]
  | cons c cs =>
    simp only [splitChars]
    split
    · simp
    · split <;> simp

theorem jsSplit_head?_isSome (h : String) (sep : Char) :
    ∃ label, (jsSplit h sep).head? = some label := by
  have hne := splitChars_ne_nil sep h.toList
  cases hsp : splitChars sep h.toList with
  | nil => exact absurd hsp hne
  | cons a t => exact ⟨String.mk a, by simp only [jsSplit, hsp, List.map_cons, List.head?_cons]⟩

theorem jsSplit_empty (sep : Char) : jsSplit "" sep = [""] := by
  simp [jsSplit, splitChars]

theorem subdomainOf_some_truthy (host : Option String) (s : String)
    (h : subdomainOf host = some s) : truthy (some s) = true := by
  cases host with
  | none => simp [subdomainOf] at h
  | some x =>
    simp only [subdomainOf] at h
    split at h
    · split at h
      · rename_i _ hc
        simp only [Bool.and_eq_true] at hc
        rw [h] at hc
        exact hc.1.1
      · simp at h
    · simp at h

theorem subdomainOf_label (h label : String) (hl : (jsSplit h '.').head? = some label)
    (h1 : label ≠ "") (h2 : label ≠ "www") (h3 : label ≠ "api") :
    subdomainOf (some h) = some label := by
  have hne : h ≠ "" := by
    intro he
    subst he
    rw [jsSplit_empty] at hl
    simp at hl
    exact h1 hl.symm
  simp [subdomainOf, truthy, hne, hl, h1, h2, h3]

theorem subdomainOf_eq_none_iff (host : Option String) :
    subdomainOf host = none ↔ specNoHostCandidate host = true := by
  cases host with
  | none => simp [subdomainOf, specNoHostCandidate]
  | some h =>
    obtain ⟨label, hl⟩ := jsSplit_head?_isSome h '.'
    by_cases h1 : label = ""
    · subst h1
      simp [subdomainOf, specNoHostCandidate, hl, truthy]
    · by_cases h2 : label = "www"
      · subst h2
        simp [subdomainOf, specNoHostCandidate, hl, truthy]
      · by_cases h3 : label = "api"
        · subst h3
          simp [subdomainOf, specNoHostCandidate, hl, truthy]
        · rw [subdomainOf_label h label hl h1 h2 h3]
          simp [specNoHostCandidate, hl, h1, h2, h3]

theorem universityDomain_header (req : Req) (h : String)
    (hh : req.headers.x_university_domain = some h) (hne : h ≠ "") :
    universityDomain req = some h := by
  simp [universityDomain, hh, truthy, hne]

theorem universityDomain_subdomain (req : Req) (s : String)
    (hh : truthy req.headers.x_university_domain = false)
    (hs : subdomainOf req.headers.host = some s) :
    universityDomain req = some s := by
  have ht := subdomainOf_some_truthy _ _ hs
  simp [universityDomain, hh, hs, ht]

theorem universityDomain_body (req : Req) (b : String)
    (hh : truthy req.headers.x_university_domain = false)
    (hs : subdomainOf req.headers.host = none)
    (hb : req.body.university_domain = some b) (hne : b ≠ "") :
    universityDomain req = some b := by
  have hb' : truthy (some b) = true := (truthy_some_iff b).2 hne
  simp [universityDomain, hh, hs, hb, hb']

theorem universityDomain_falsy_iff (req : Req) :
    truthy (universityDomain req) = false ↔
      truthy req.headers.x_university_domain = false ∧ subdomainOf req.headers.host = none ∧
        truthy req.body.university_domain = false := by
  cases hh : truthy req.headers.x_university_domain with
  | true => simp [universityDomain, hh]
  | false =>
    cases hs : subdomainOf req.headers.host with
    | some s =>
      have ht := subdomainOf_some_truthy _ _ hs
      simp [universityDomain, hh, hs, ht]
    | none =>
      cases hb : truthy req.body.university_domain <;> simp [universityDomain, hh, hs, hb]

theorem tenantMiddleware_of_candidate (db : Db) (req : Req) (hs : List (String × String))
    (d : String) (hskip : isSkipRoute req.path = false) (hd : universityDomain req = some d)
    (hne : d ≠ "") : tenantMiddleware db req hs = tenantLookup db req hs d := by
  simp [tenantMiddleware, hskip, hd, truthy, hne]

theorem getHeader_tenant_id (hs : List (String × String)) (id name : String) :
    getHeader (setHeader (setHeader hs "X-University-ID" id) "X-University-Name" name)
      "X-University-ID" = some id := by
  simp [getHeader, setHeader, List.find?, List.filter]

theorem getHeader_tenant_name (hs : List (String × String)) (id name : String) :
    getHeader (setHeader (setHeader hs "X-University-ID" id) "X-University-Name" name)
      "X-University-Name" = some name := by
  simp [getHeader, setHeader, List.find?]

/-- C13: on a path that is not bypassed, the domain `tenantMiddleware` looks up is the
`x-university-domain` header when that is non-empty; otherwise the first dot-separated label of
the Host when that label is non-empty and neither `www` nor `api`; otherwise the body field
`university_domain` when that is non-empty.  In the first two cases the body field plays no
part. -/
theorem tenantMiddleware_resolution_order (db : Db) (req : Req) (hs : List (String × String))
    (hskip : isSkipRoute req.path = false) :
    (∀ h : String, req.headers.x_university_domain = some h → h ≠ "" →
        universityDomain req = some h ∧
        tenantMiddleware db req hs = tenantLookup db req hs h) ∧
      (truthy req.headers.x_university_domain = false →
        ∀ host label : String, req.headers.host = some host →
          (jsSplit host '.').head? = some label → label ≠ "" → label ≠ "www" → label ≠ "api" →
          universityDomain req = some label ∧
          tenantMiddleware db req hs = tenantLookup db req hs label) ∧
      (truthy req.headers.x_university_domain = false →
        specNoHostCandidate req.headers.host = true →
        ∀ b : String, req.body.university_domain = some b → b ≠ "" →
          universityDomain req = some b ∧
          tenantMiddleware db req hs = tenantLookup db req hs b) := by
  refine ⟨?_, ?_, ?_⟩
  · intro h hh hne
    have hd := universityDomain_header req h hh hne
    exact ⟨hd, tenantMiddleware_of_candidate db req hs h hskip hd hne⟩
  · intro hh host label hhost hl h1 h2 h3
    have hsub : subdomainOf req.headers.host = some label := by
      rw [hhost]
      exact subdomainOf_label host label hl h1 h2 h3
    have hd := universityDomain_subdomain req label hh hsub
    exact ⟨hd, tenantMiddleware_of_candidate db req hs label hskip hd h1⟩
  · intro hh hhost b hb hne
    have hsub := (subdomainOf_eq_none_iff req.headers.host).2 hhost
    have hd := universityDomain_body req b hh hsub hb hne
    exact ⟨hd, tenantMiddleware_of_candidate db req hs b hskip hd hne⟩

/-- C13, at a concrete input: header `uniA`, host `uniB.example.com` and body field `uniC` all
supplied; the header is the domain looked up and `uniA` is attached. -/
theorem tenantMiddleware_resolution_order_witness :
    (tenantMiddleware sampleDb
        { blankReq "/api/v1/courses" with
          headers := { x_university_domain := some "uniA", authorization := none,
                       host := some "uniB.example.com" },
          body := { university_domain := some "uniC", course_id := none } } []).req.university
      = some uniA := by
  have h := (tenantMiddleware_resolution_order sampleDb
        { blankReq "/api/v1/courses" with
          headers := { x_university_domain := some "uniA", authorization := none,
                       host := some "uniB.example.com" },
          body := { university_domain := some "uniC", course_id := none } } []
        (by decide)).1 "uniA" rfl (by decide)
  rw [h.2]
  decide

theorem tenantLookup_found (db : Db) (req : Req) (hs : List (String × String)) (d : String)
    (T : University) (hok : db.fails DbOp.University_findOne = false)
    (hT : db.universities.find? (fun t => t.domain == d && t.is_active) = some T)
    (hid : validHeaderValue T.id = true) (hname : validHeaderValue T.name = true) :
    tenantLookup db req hs d
      = Result.pass { req with university := some T, universityId := some T.id }
          (setHeader (setHeader hs "X-University-ID" T.id) "X-University-Name" T.name) db := by
  simp [tenantLookup, Db.University_findOne, hok, hT, hid, hname]

/-- The outcomes of the tenant lookup on a path that is not bypassed, with a candidate domain
`d` and the lookup answering.  If no university row has domain `d` and `is_active` true,
`tenantMiddleware` answers 404 `University not found or inactive` and leaves request, response
headers and database as they were.  If such a row exists and its id and name are legal header
values, one such row is attached as `req.university`, `req.universityId` is its id, the headers
`X-University-ID` and `X-University-Name` carry its id and name, and `next()` is called.  If the
row found has a name that is not a legal header value, `next()` is not called. -/
theorem tenantMiddleware_lookup_outcomes (db : Db) (req : Req)
    (hs : List (String × String)) (d : String) (hskip : isSkipRoute req.path = false)
    (hd : universityDomain req = some d) (hne : d ≠ "")
    (hdb : db.fails DbOp.University_findOne = false) :
    ((∀ u ∈ db.universities, ¬ (u.domain = d ∧ u.is_active = true)) →
        tenantMiddleware db req hs
          = Result.send req hs db 404 "University not found or inactive"
              "الجامعة غير موجودة أو غير نشطة") ∧
      (∀ u : University,
        db.universities.find? (fun t => t.domain == d && t.is_active) = some u →
        validHeaderValue u.id = true → validHeaderValue u.name = true →
        u ∈ db.universities ∧ u.domain = d ∧ u.is_active = true ∧
          (tenantMiddleware db req hs).req.university = some u ∧
          (tenantMiddleware db req hs).req.universityId = some u.id ∧
          getHeader (tenantMiddleware db req hs).resHeaders "X-University-ID" = some u.id ∧
          getHeader (tenantMiddleware db req hs).resHeaders "X-University-Name" = some u.name ∧
          (tenantMiddleware db req hs).outcome = Outcome.next ∧
          (tenantMiddleware db req hs).db = db) ∧
      (∀ u : University,
        db.universities.find? (fun t => t.domain == d && t.is_active) = some u →
        validHeaderValue u.name = false →
        (tenantMiddleware db req hs).outcome ≠ Outcome.next) := by
  rw [tenantMiddleware_of_candidate db req hs d hskip hd hne]
  refine ⟨?_, ?_, ?_⟩
  · intro hnone
    have hf : db.universities.find? (fun u => u.domain == d && u.is_active) = none := by
      rw [List.find?_eq_none]
      intro u hu
      have := hnone u hu
      simpa using this
    simp [tenantLookup, Db.University_findOne, hdb, hf]
  · intro u hf hid hname
    have hmem := List.mem_of_find?_eq_some hf
    have hp := List.find?_some hf
    simp only [Bool.and_eq_true, beq_iff_eq] at hp
    rw [tenantLookup_found db req hs d u hdb hf hid hname]
    exact ⟨hmem, hp.1, hp.2, rfl, rfl, getHeader_tenant_id hs u.id u.name,
      getHeader_tenant_name hs u.id u.name, rfl, rfl⟩
  · intro u hf hname
    by_cases hid : validHeaderValue u.id = true
    · simp [tenantLookup, Db.University_findOne, hdb, hf, hid, hname, tenantError, Result.send]
    · simp [tenantLookup, Db.University_findOne, hdb, hf, hid, tenantError, Result.send]

/-- C14 at its failing input: `uniD` is an active row with domain `uniD` whose name is written in
Arabic, the request names `uniD` in the header and the lookup answers with the row.  The row is
attached and `X-University-ID` is set, then `res.setHeader('X-University-Name', ...)` throws on
the name and the `catch` answers 500 `Error resolving university tenant`: `next()` is not called
and no `X-University-Name` header carries the name. -/
theorem tenantMiddleware_name_header_throws :
    uniD ∈ sampleDbWithUniD.universities ∧ uniD.domain = "uniD" ∧ uniD.is_active = true ∧
      sampleDbWithUniD.University_findOne "uniD" = some (some uniD) ∧
      validHeaderValue uniD.name = false ∧
      tenantMiddleware sampleDbWithUniD
          { blankReq "/api/v1/courses" with
            headers := { x_university_domain := some "uniD", authorization := none,
                         host := none } } []
        = Result.send
          { blankReq "/api/v1/courses" with
            headers := { x_university_domain := some "uniD", authorization := none,
                         host := none },
            university := some uniD, universityId := some "u-D" }
          [("X-University-ID", "u-D")] sampleDbWithUniD 500
          "Error resolving university tenant" "خطأ في تحديد الجامعة" := by
  decide

theorem tenantMiddleware_lookup_throws (req : Req) (hs : List (String × String)) (d : String) :
    (tenantLookup { universities := [], users := [], courses := [], enrollments := [],
                    failing := [DbOp.University_findOne] } req hs d).outcome ≠ Outcome.next := by
  simp [tenantLookup, Db.University_findOne, Db.fails, tenantError, Result.send]

/-- C15: on a path that is not bypassed, `tenantMiddleware` calls `next()` with request, response
headers and database untouched for every database (also one whose tenant lookup would throw, so
no lookup is made) exactly when there is no candidate: the `x-university-domain` header is
absent or empty, the Host is absent or its first dot-separated label is empty, `www` or `api`,
and the body has no non-empty `university_domain`.  A bare Host such as `localhost:3000` is a
candidate: with no header, it is the domain looked up. -/
theorem tenantMiddleware_tenantless (req : Req) (hs : List (String × String))
    (hskip : isSkipRoute req.path = false) :
    ((∀ db : Db, tenantMiddleware db req hs = Result.pass req hs db) ↔
        (truthy req.headers.x_university_domain = false ∧
          specNoHostCandidate req.headers.host = true ∧
          truthy req.body.university_domain = false)) ∧
      (truthy req.headers.x_university_domain = false →
        req.headers.host = some "localhost:3000" →
        ∀ db : Db, tenantMiddleware db req hs = tenantLookup db req hs "localhost:3000") := by
  constructor
  · rw [← subdomainOf_eq_none_iff, ← universityDomain_falsy_iff]
    constructor
    · intro hall
      cases hd : universityDomain req with
      | none => rfl
      | some d =>
        by_cases hne : d = ""
        · simp [truthy, hne]
        · exfalso
          have h1 := hall { universities := [], users := [], courses := [], enrollments := [],
                            failing := [DbOp.University_findOne] }
          rw [tenantMiddleware_of_candidate _ req hs d hskip hd hne] at h1
          apply tenantMiddleware_lookup_throws req hs d
          rw [h1]
          rfl
    · intro hf db
      simp [tenantMiddleware, hskip, hf]
  · intro hh hhost db
    have hsub : subdomainOf req.headers.host = some "localhost:3000" := by
      rw [hhost]
      decide
    have hd := universityDomain_subdomain req _ hh hsub
    exact tenantMiddleware_of_candidate db req hs _ hskip hd (by decide)

/-- C15, at a concrete input: no header, Host `www.example.com`, empty body field, and a tenant
lookup that would throw. -/
theorem tenantMiddleware_tenantless_witness :
    tenantMiddleware { sampleDb with failing := [DbOp.University_findOne] }
        { blankReq "/api/v1/courses" with
          headers := { x_university_domain := none, authorization := none,
                       host := some "www.example.com" },
          body := { university_domain := some "", course_id := none } } []
      = Result.pass
        { blankReq "/api/v1/courses" with
          headers := { x_university_domain := none, authorization := none,
                       host := some "www.example.com" },
          body := { university_domain := some "", course_id := none } } []
        { sampleDb with failing := [DbOp.University_findOne] } :=
  (tenantMiddleware_tenantless
      { blankReq "/api/v1/courses" with
        headers := { x_university_domain := none, authorization := none,
                     host := some "www.example.com" },
        body := { university_domain := some "", course_id := none } } []
      (by decide)).1.2 ⟨by decide, by decide, by decide⟩ _

/-- C16: when the path contains one of `/health`, `/api-docs`, `/auth/login`, `/auth/register` as
a substring, `tenantMiddleware` calls `next()` at once for every request and every database:
request (no tenant attached), response headers and database are untouched whatever header, Host
or body field is supplied and even when the tenant lookup would throw, so no lookup is made.  On
every other path resolution is attempted: the candidate is computed and, when there is one,
looked up. -/
theorem tenantMiddleware_bypass (req : Req) (hs : List (String × String)) :
    ((∃ r ∈ skipRoutes, r.toList <:+: req.path.toList) →
        ∀ db : Db, tenantMiddleware db req hs = Result.pass req hs db) ∧
      ((¬ ∃ r ∈ skipRoutes, r.toList <:+: req.path.toList) →
        ∀ db : Db, tenantMiddleware db req hs
          = if truthy (universityDomain req) then
              tenantLookup db req hs ((universityDomain req).getD "")
            else Result.pass req hs db) := by
  constructor
  · intro h db
    have hskip := (isSkipRoute_iff req.path).2 h
    simp [tenantMiddleware, hskip]
  · intro h db
    have hskip : isSkipRoute req.path = false := by
      cases hc : isSkipRoute req.path with
      | false => rfl
      | true => exact absurd ((isSkipRoute_iff req.path).1 hc) h
    simp [tenantMiddleware, hskip]

/-! ## Authentication -/

theorem authMiddleware_no_token (env : Env) (db : Db) (req : Req) (hs : List (String × String))
    (h : truthy (bearerToken req.headers.authorization) = false) :
    authMiddleware env db req hs = notAuthorized req hs db := by
  simp [authMiddleware, h]

theorem authMiddleware_verify_throws (env : Env) (db : Db) (req : Req)
    (hs : List (String × String)) (tok : String)
    (htok : bearerToken req.headers.authorization = some tok) (hne : tok ≠ "")
    (hver : ∀ id, env.jwtVerify tok env.JWT_SECRET ≠ JwtResult.decoded id) :
    authMiddleware env db req hs = notAuthorized req hs db := by
  have ht : truthy (some tok) = true := (truthy_some_iff tok).2 hne
  simp only [authMiddleware, htok, ht, Bool.not_true, Bool.false_eq_true, if_false,
    Option.getD_some]

theorem authMiddleware_of_decoded (env : Env) (db : Db) (req : Req)
    (hs : List (String × String)) (tok : String) (id : Option String)
    (htok : bearerToken req.headers.authorization = some tok) (hne : tok ≠ "")
    (hver : env.jwtVerify tok env.JWT_SECRET = JwtResult.decoded id) :
    authMiddleware env db req hs =
      match db.User_findByPk_auth id with
      | none => notAuthorized req hs db
      | some none => Result.send req hs db 401 "User not found" "المستخدم غير موجود"
      | some (some user) =>
        if !user.is_active then
          Result.send req hs db 401 "User account is deactivated" "حساب المستخدم معطل"
        else if (match user.university with
                 | some university => !university.is_active
                 | none => false) then
          Result.send req hs db 401 "University is deactivated" "الجامعة معطلة"
        else
          match db.User_update_last_login user env.now with
          | none => notAuthorized req hs db
          | some (user', db') => Result.pass { req with user := some user' } hs db' := by
  have ht : truthy (some tok) = true := (truthy_some_iff tok).2 hne
  simp only [authMiddleware, htok, ht, Bool.not_true, Bool.false_eq_true, if_false,
    Option.getD_some, hver]

/-- C17: when the `Authorization` header is absent, does not start with `Bearer`, or has no
non-empty second space-separated segment, `authMiddleware` answers 401 `Not authorized to access
this route` and leaves the request (no principal attached) and the database as they were, for
every verifier and every database: also when verification or the user lookup would throw, so
neither is performed, and `next()` is not called. -/
theorem authMiddleware_missing_credential (req : Req) (hs : List (String × String))
    (h : req.headers.authorization = none ∨
      ∃ a : String, req.headers.authorization = some a ∧
        (jsStartsWith a "Bearer" = false ∨ truthy ((jsSplit a ' ').get? 1) = false)) :
    ∀ (env : Env) (db : Db),
      authMiddleware env db req hs
        = Result.send req hs db 401 "Not authorized to access this route"
            "غير مخول للوصول إلى هذا المسار" := by
  intro env db
  have hb : truthy (bearerToken req.headers.authorization) = false := by
    rcases h with h | ⟨a, ha, h | h⟩
    · simp [bearerToken, h, truthy]
    · simp [bearerToken, ha, h, truthy]
    · rw [ha]
      simp only [bearerToken]
      split
      · exact h
      · rfl
  rw [authMiddleware_no_token env db req hs hb]
  rfl

/-- C17, at a concrete input: the header `Bearer ` followed by a second blank and a token, whose
second segment is empty, with a user lookup that would throw. -/
theorem authMiddleware_missing_credential_witness :
    authMiddleware sampleEnv { sampleDb with failing := [DbOp.User_findByPk] }
        (bearerReq (some "Bearer  alice")) []
      = Result.send (bearerReq (some "Bearer  alice")) []
          { sampleDb with failing := [DbOp.User_findByPk] } 401
          "Not authorized to access this route" "غير مخول للوصول إلى هذا المسار" :=
  authMiddleware_missing_credential (bearerReq (some "Bearer  alice")) []
    (Or.inr ⟨"Bearer  alice", rfl, Or.inr (by decide)⟩) sampleEnv _

theorem User_findByPk_none (db : Db) (i : String)
    (hdb : db.fails DbOp.User_findByPk = false) (h : ∀ u ∈ db.users, u.id ≠ i) :
    db.User_findByPk (some i) = some none := by
  have hf : db.users.find? (fun u => u.id == i) = none := by
    rw [List.find?_eq_none]
    intro u hu
    simpa using h u hu
  simp [Db.User_findByPk, hdb, hf]

theorem User_findByPk_some (db : Db) (i : String) (u : User)
    (hdb : db.fails DbOp.User_findByPk = false)
    (h : db.users.find? (fun u => u.id == i) = some u) :
    db.User_findByPk (some i)
      = some (some { toUser := u,
                     university := db.universities.find? (fun t => t.id == u.university_id) }) := by
  simp [Db.User_findByPk, hdb, h]

theorem User_findByPk_auth_none (db : Db) (i : String)
    (hdb : db.fails DbOp.User_findByPk = false) (h : ∀ u ∈ db.users, u.id ≠ i) :
    db.User_findByPk_auth (some i) = some none := by
  simp [Db.User_findByPk_auth, User_findByPk_none db i hdb h]

theorem User_findByPk_auth_some (db : Db) (i : String) (u : User)
    (hdb : db.fails DbOp.User_findByPk = false)
    (h : db.users.find? (fun u => u.id == i) = some u) :
    db.User_findByPk_auth (some i)
      = some (some { toUser := { u with password := none },
                     university := db.universities.find? (fun t => t.id == u.university_id) }) := by
  simp [Db.User_findByPk_auth, User_findByPk_some db i u hdb h]

/-- C18: for a token that verifies and embeds id `i`, with the user lookup answering,
`authMiddleware` answers 401 `User not found` when no user has id `i`; 401 `User account is
deactivated` when the user found has `is_active` false (whatever the state of its university);
401 `University is deactivated` when the user is active and its university row exists with
`is_active` false.  In all three cases the request is unchanged (`req.user` is not set), the
database is unchanged (`last_login` is not written) and `next()` is not called. -/
theorem authMiddleware_principal_loading (env : Env) (db : Db) (req : Req)
    (hs : List (String × String)) (tok i : String)
    (htok : bearerToken req.headers.authorization = some tok) (hne : tok ≠ "")
    (hver : env.jwtVerify tok env.JWT_SECRET = JwtResult.decoded (some i))
    (hdb : db.fails DbOp.User_findByPk = false) :
    ((∀ u ∈ db.users, u.id ≠ i) →
        authMiddleware env db req hs
          = Result.send req hs db 401 "User not found" "المستخدم غير موجود") ∧
      (∀ u : User, db.users.find? (fun u => u.id == i) = some u → u.is_active = false →
        authMiddleware env db req hs
          = Result.send req hs db 401 "User account is deactivated" "حساب المستخدم معطل") ∧
      (∀ (u : User) (t : University), db.users.find? (fun u => u.id == i) = some u →
        u.is_active = true →
        db.universities.find? (fun t => t.id == u.university_id) = some t →
        t.is_active = false →
        authMiddleware env db req hs
          = Result.send req hs db 401 "University is deactivated" "الجامعة معطلة") := by
  rw [authMiddleware_of_decoded env db req hs tok (some i) htok hne hver]
  refine ⟨?_, ?_, ?_⟩
  · intro h
    rw [User_findByPk_auth_none db i hdb h]
  · intro u hu hact
    rw [User_findByPk_auth_some db i u hdb hu]
    simp [hact]
  · intro u t hu hact ht htact
    rw [User_findByPk_auth_some db i u hdb hu]
    simp [hact, ht, htact]

/-- C18, at a concrete input: the token of `carol`, an active professor of the deactivated
`uniB`. -/
theorem authMiddleware_principal_loading_witness :
    authMiddleware sampleEnv sampleDb (bearerReq (some "Bearer s3cret:carol")) []
      = Result.send (bearerReq (some "Bearer s3cret:carol")) [] sampleDb 401
          "University is deactivated" "الجامعة معطلة" :=
  (authMiddleware_principal_loading sampleEnv sampleDb (bearerReq (some "Bearer s3cret:carol")) []
    "s3cret:carol" "carol" (by decide) (by decide) (by decide) (by decide)).2.2 carol uniB
    (by decide) (by decide) (by decide) (by decide)

/-- C19, as stated, fails: the verifier reports a signature failure for `wr0ng:alice` (signed
under another secret) and an expiry for `s3cret:alice:expired`, yet `authMiddleware` sends the
same response for both, and the same again when the header is missing. -/
theorem authMiddleware_invalid_expired_same_response :
    sampleEnv.jwtVerify "wr0ng:alice" sampleEnv.JWT_SECRET = JwtResult.JsonWebTokenError ∧
      sampleEnv.jwtVerify "s3cret:alice:expired" sampleEnv.JWT_SECRET = JwtResult.TokenExpiredError ∧
      bearerToken (some "Bearer wr0ng:alice") = some "wr0ng:alice" ∧
      bearerToken (some "Bearer s3cret:alice:expired") = some "s3cret:alice:expired" ∧
      (authMiddleware sampleEnv sampleDb (bearerReq (some "Bearer wr0ng:alice")) []).outcome
        = (authMiddleware sampleEnv sampleDb (bearerReq (some "Bearer s3cret:alice:expired")) []).outcome ∧
      (authMiddleware sampleEnv sampleDb (bearerReq (some "Bearer s3cret:alice:expired")) []).outcome
        = (authMiddleware sampleEnv sampleDb (bearerReq none) []).outcome := by
  decide

/-- C19, amended: `authMiddleware` does not distinguish the kinds.  For an access token whose
verification throws `JsonWebTokenError` (the signature does not verify), for one whose
verification throws `TokenExpiredError` (correctly signed but expired) and for a request with no
usable bearer token, the response is the same: 401 `Not authorized to access this route`, with
request and database unchanged. -/
theorem authMiddleware_token_failures_collapse (env : Env) (db : Db) (reqInvalid reqExpired
    reqMissing : Req) (hs : List (String × String)) (tokInvalid tokExpired : String)
    (h1 : bearerToken reqInvalid.headers.authorization = some tokInvalid)
    (hne1 : tokInvalid ≠ "")
    (hv1 : env.jwtVerify tokInvalid env.JWT_SECRET = JwtResult.JsonWebTokenError)
    (h2 : bearerToken reqExpired.headers.authorization = some tokExpired)
    (hne2 : tokExpired ≠ "")
    (hv2 : env.jwtVerify tokExpired env.JWT_SECRET = JwtResult.TokenExpiredError)
    (h3 : truthy (bearerToken reqMissing.headers.authorization) = false) :
    authMiddleware env db reqInvalid hs
        = Result.send reqInvalid hs db 401 "Not authorized to access this route"
            "غير مخول للوصول إلى هذا المسار" ∧
      authMiddleware env db reqExpired hs
        = Result.send reqExpired hs db 401 "Not authorized to access this route"
            "غير مخول للوصول إلى هذا المسار" ∧
      authMiddleware env db reqMissing hs
        = Result.send reqMissing hs db 401 "Not authorized to access this route"
            "غير مخول للوصول إلى هذا المسار" ∧
      (authMiddleware env db reqInvalid hs).outcome
        = (authMiddleware env db reqExpired hs).outcome ∧
      (authMiddleware env db reqExpired hs).outcome
        = (authMiddleware env db reqMissing hs).outcome := by
  have e1 : authMiddleware env db reqInvalid hs = notAuthorized reqInvalid hs db :=
    authMiddleware_verify_throws env db reqInvalid hs tokInvalid h1 hne1
      (by intro id; rw [hv1]; exact fun h => JwtResult.noConfusion h)
  have e2 : authMiddleware env db reqExpired hs = notAuthorized reqExpired hs db :=
    authMiddleware_verify_throws env db reqExpired hs tokExpired h2 hne2
      (by intro id; rw [hv2]; exact fun h => JwtResult.noConfusion h)
  have e3 := authMiddleware_no_token env db reqMissing hs h3
  rw [e1, e2, e3]
  exact ⟨rfl, rfl, rfl, rfl, rfl⟩

/-- C19 amended, at a concrete input: a token signed under another secret, an expired token and
a request without the header. -/
theorem authMiddleware_token_failures_collapse_witness :
    (authMiddleware sampleEnv sampleDb (bearerReq (some "Bearer wr0ng:alice")) []).outcome
        = (authMiddleware sampleEnv sampleDb (bearerReq (some "Bearer s3cret:alice:expired")) []).outcome :=
  (authMiddleware_token_failures_collapse sampleEnv sampleDb (bearerReq (some "Bearer wr0ng:alice"))
    (bearerReq (some "Bearer s3cret:alice:expired")) (bearerReq none) [] "wr0ng:alice" "s3cret:alice:expired" (by decide)
    (by decide) (by decide) (by decide) (by decide) (by decide) (by decide)).2.2.2.1

/-- C20, as stated, fails: `alice` is active, her university is active and her token verifies,
but with the `last_login` write rejecting `authMiddleware` answers 401, attaches no principal and
does not call `next()`. -/
theorem authMiddleware_write_failure_rejects :
    sampleEnv.jwtVerify "s3cret:alice" sampleEnv.JWT_SECRET = JwtResult.decoded (some "alice") ∧
      sampleDbWriteDown.User_findByPk_auth (some "alice")
        = some (some { toUser := { alice with password := none }, university := some uniA }) ∧
      authMiddleware sampleEnv sampleDbWriteDown (bearerReq (some "Bearer s3cret:alice")) []
        = Result.send (bearerReq (some "Bearer s3cret:alice")) [] sampleDbWriteDown 401
            "Not authorized to access this route" "غير مخول للوصول إلى هذا المسار" := by
  decide

/-- C20, amended: for a valid access token whose principal exists, is active and whose
university is absent or active, `authMiddleware` awaits the `last_login` write before it attaches
the principal.  When the write succeeds, the principal (with the new `last_login` and, as the
query excludes it, without `password`) is attached as `req.user`, the row is updated and `next()`
is called; when the write fails, `next()` is not called, no principal is attached and the
database is unchanged. -/
theorem authMiddleware_last_login_write (env : Env) (db : Db) (req : Req)
    (hs : List (String × String)) (tok i : String) (u : User)
    (htok : bearerToken req.headers.authorization = some tok) (hne : tok ≠ "")
    (hver : env.jwtVerify tok env.JWT_SECRET = JwtResult.decoded (some i))
    (hdb : db.fails DbOp.User_findByPk = false)
    (hu : db.users.find? (fun u => u.id == i) = some u) (hact : u.is_active = true)
    (huni : ∀ t : University,
      db.universities.find? (fun t => t.id == u.university_id) = some t → t.is_active = true) :
    (db.fails DbOp.User_update = false →
        authMiddleware env db req hs
          = Result.pass
              { req with
                user := some { toUser := { u with last_login := some env.now, password := none },
                               university :=
                                 db.universities.find? (fun t => t.id == u.university_id) } }
              hs
              { db with
                users := db.users.map (fun v =>
                  if v.id == u.id then { v with last_login := some env.now } else v) })
      ∧ (db.fails DbOp.User_update = true →
        (authMiddleware env db req hs).outcome ≠ Outcome.next ∧
        (authMiddleware env db req hs).req = req ∧
        (authMiddleware env db req hs).db = db) := by
  rw [authMiddleware_of_decoded env db req hs tok (some i) htok hne hver,
    User_findByPk_auth_some db i u hdb hu]
  have hunib : (match db.universities.find? (fun t => t.id == u.university_id) with
      | some university => !university.is_active
      | none => false) = false := by
    cases hf : db.universities.find? (fun t => t.id == u.university_id) with
    | none => rfl
    | some t => simp [huni t hf]
  constructor
  · intro hw
    simp [hact, hunib, Db.User_update_last_login, hw]
  · intro hw
    simp [hact, hunib, Db.User_update_last_login, hw, notAuthorized, Result.send]

/-- C20 amended, at a concrete input: the token of `alice` with the write working. -/
theorem authMiddleware_last_login_write_witness :
    (authMiddleware sampleEnv sampleDb (bearerReq (some "Bearer s3cret:alice")) []).outcome
      = Outcome.next := by
  have h := (authMiddleware_last_login_write sampleEnv sampleDb (bearerReq (some "Bearer s3cret:alice"))
    [] "s3cret:alice" "alice" alice (by decide) (by decide) (by decide) (by decide) (by decide)
    (by decide) (fun t ht => by
      have e : t = uniA := (Option.some.inj ht).symm
      rw [e]
      rfl)).1 (by decide)
  rw [h]
  rfl

/-! ## Role and tenant-ownership checks -/

/-- C4: for an authenticated principal `user` and a resolved tenant `T`,
`checkUniversityAccess` calls `next()` (changing nothing) iff the role is `super_admin` or
`user.university_id` equals `T.id`; otherwise it answers 403 `Access denied: User does not belong
to this university` and does not call `next()`.  `validateTenantAccess` decides the same way. -/
theorem checkUniversityAccess_with_tenant (db : Db) (req : Req) (hs : List (String × String))
    (user : UserWithUniversity) (T : University) (hu : req.user = some user)
    (hT : req.university = some T) :
    ((checkUniversityAccess db req hs).outcome = Outcome.next ↔
        (user.role = "super_admin" ∨ user.university_id = T.id)) ∧
      ((user.role = "super_admin" ∨ user.university_id = T.id) →
        checkUniversityAccess db req hs = Result.pass req hs db) ∧
      (¬ (user.role = "super_admin" ∨ user.university_id = T.id) →
        checkUniversityAccess db req hs
          = Result.send req hs db 403 "Access denied: User does not belong to this university"
              "الوصول مرفوض: المستخدم لا ينتمي لهذه الجامعة") ∧
      ((validateTenantAccess db req hs).outcome = Outcome.next ↔
        (user.role = "super_admin" ∨ user.university_id = T.id)) := by
  by_cases hr : user.role = "super_admin"
  · simp [checkUniversityAccess, validateTenantAccess, hu, hT, hr, Result.pass]
  · by_cases hid : user.university_id = T.id
    · simp [checkUniversityAccess, validateTenantAccess, hu, hT, hr, hid, Result.pass]
    · simp [checkUniversityAccess, validateTenantAccess, hu, hT, hr, hid, Result.send]

/-- C4, at a concrete input: `alice` of `uniA` while `uniC` is resolved. -/
theorem checkUniversityAccess_with_tenant_witness :
    checkUniversityAccess sampleDb
        { blankReq "/api/v1/courses" with
          university := some uniC, user := some { toUser := alice, university := some uniA } } []
      = Result.send
        { blankReq "/api/v1/courses" with
          university := some uniC, user := some { toUser := alice, university := some uniA } } []
        sampleDb 403 "Access denied: User does not belong to this university"
        "الوصول مرفوض: المستخدم لا ينتمي لهذه الجامعة" :=
  (checkUniversityAccess_with_tenant sampleDb _ [] { toUser := alice, university := some uniA }
    uniC rfl rfl).2.2.1 (by decide)

/-- C5, as stated, fails: `alice` is a student, no tenant is resolved, and
`checkUniversityAccess` calls `next()`. -/
theorem checkUniversityAccess_no_tenant_passes :
    alice.role ≠ "super_admin" ∧
      checkUniversityAccess sampleDb
          { blankReq "/api/v1/courses" with
            user := some { toUser := alice, university := some uniA } } []
        = Result.pass
          { blankReq "/api/v1/courses" with
            user := some { toUser := alice, university := some uniA } } [] sampleDb := by
  decide

/-- C5, amended: the tenant-ownership check applies only when a tenant was resolved.  For every
authenticated principal, super-admin or not, when `req.university` is absent
`checkUniversityAccess` calls `next()` and changes nothing, and so does
`validateTenantAccess`. -/
theorem checkUniversityAccess_no_tenant (db : Db) (req : Req) (hs : List (String × String))
    (user : UserWithUniversity) (hu : req.user = some user) (hT : req.university = none) :
    checkUniversityAccess db req hs = Result.pass req hs db ∧
      validateTenantAccess db req hs = Result.pass req hs db := by
  by_cases hr : user.role = "super_admin" <;>
    simp [checkUniversityAccess, validateTenantAccess, hu, hT, hr]

/-- C5 amended, at a concrete input: the dean `erin` with no tenant resolved. -/
theorem checkUniversityAccess_no_tenant_witness :
    checkUniversityAccess sampleDb
        { blankReq "/api/v1/users" with
          user := some { toUser := erin, university := some uniA } } []
      = Result.pass
        { blankReq "/api/v1/users" with
          user := some { toUser := erin, university := some uniA } } [] sampleDb :=
  (checkUniversityAccess_no_tenant sampleDb _ [] { toUser := erin, university := some uniA }
    rfl rfl).1

/-- C7: `authorize(...roles)` calls `next()` iff `req.user` is present and its role is one of
`roles`; a present principal whose role is not in `roles` is answered 403 with a message that
contains the role string; a missing principal is answered 401; and `authorize()` with no role
admits no request. -/
theorem authorize_role_check (roles : List String) (db : Db) (req : Req)
    (hs : List (String × String)) :
    ((authorize roles db req hs).outcome = Outcome.next ↔
        ∃ user, req.user = some user ∧ user.role ∈ roles) ∧
      (∀ user : UserWithUniversity, req.user = some user → user.role ∉ roles →
        ∃ r : Response, (authorize roles db req hs).outcome = Outcome.respond r ∧
          r.status = 403 ∧ user.role.toList <:+: r.message.toList) ∧
      (req.user = none →
        authorize roles db req hs
          = Result.send req hs db 401 "Not authorized to access this route"
              "غير مخول للوصول إلى هذا المسار") ∧
      (authorize [] db req hs).outcome ≠ Outcome.next := by
  cases hu : req.user with
  | none => simp [authorize, hu, notAuthorized, Result.send]
  | some user =>
    by_cases hr : user.role ∈ roles
    · simp [authorize, hu, hr, Result.pass, Result.send]
    · refine ⟨by simp [authorize, hu, hr, Result.send], ?_, by simp, by
        simp [authorize, hu, Result.send]⟩
      intro user' hu' _
      have e : user' = user := (Option.some.inj hu').symm
      subst e
      refine ⟨{ status := 403, success := false,
                message := "User role " ++ user'.role ++ " is not authorized to access this route",
                message_ar := "دور المستخدم " ++ user'.role ++ " غير مخول للوصول إلى هذا المسار" },
        by simp [authorize, hu, hr, Result.send], rfl, ?_⟩
      exact ⟨"User role ".toList, " is not authorized to access this route".toList, by
        simp [String.toList]⟩

/-! ## The course check below the administrators -/

theorem checkCourseAccess_of_course (db : Db) (req : Req) (hs : List (String × String))
    (user : UserWithUniversity) (cid : String) (course : Course)
    (hu : req.user = some user) (hid : courseIdOf req = some cid) (hne : cid ≠ "")
    (h1 : user.role ≠ "super_admin") (h2 : user.role ≠ "university_admin")
    (hok : db.fails DbOp.Course_findByPk = false)
    (hc : db.courses.find? (fun c => c.id == cid) = some course) :
    checkCourseAccess db req hs =
      if user.university_id != course.university_id then
        Result.send req hs db 403 "Access denied: Course belongs to different university"
          "الوصول مرفوض: الدورة تنتمي لجامعة مختلفة"
      else if user.role == "professor" && course.instructor_id == user.id then
        Result.pass req hs db
      else if user.role == "student" then
        match db.Enrollment_findOne user.id cid with
        | none => courseCheckError req hs db
        | some none =>
          Result.send req hs db 403 "Access denied: Not enrolled in this course"
            "الوصول مرفوض: غير مسجل في هذه الدورة"
        | some (some _) => Result.pass req hs db
      else Result.pass req hs db := by
  have ht : truthy (some cid) = true := (truthy_some_iff cid).2 hne
  simp [checkCourseAccess, hu, hid, ht, h1, h2, Db.Course_findByPk, hok, hc]

theorem Enrollment_findOne_isSome_iff (db : Db) (uid cid : String)
    (hok : db.fails DbOp.Enrollment_findOne = false) :
    (∃ e, db.Enrollment_findOne uid cid = some (some e)) ↔
      ∃ e ∈ db.enrollments, e.user_id = uid ∧ e.course_id = cid ∧ e.status = "enrolled" := by
  simp only [Db.Enrollment_findOne, hok, Bool.false_eq_true, if_false, Option.some.injEq]
  constructor
  · rintro ⟨e, he⟩
    have hp := List.find?_some he
    simp only [Bool.and_eq_true, beq_iff_eq] at hp
    exact ⟨e, List.mem_of_find?_eq_some he, hp.1.1, hp.1.2, hp.2⟩
  · rintro ⟨e, hmem, h1, h2, h3⟩
    cases hf : db.enrollments.find?
        (fun e => e.user_id == uid && e.course_id == cid && e.status == "enrolled") with
    | some e' => exact ⟨e', rfl⟩
    | none =>
      rw [List.find?_eq_none] at hf
      have := hf e hmem
      simp [h1, h2, h3] at this

theorem checkCourseAccess_student (db : Db) (req : Req) (hs : List (String × String))
    (user : UserWithUniversity) (cid : String) (course : Course)
    (hu : req.user = some user) (hrole : user.role = "student")
    (hid : courseIdOf req = some cid) (hne : cid ≠ "")
    (hc : db.courses.find? (fun c => c.id == cid) = some course)
    (hsame : user.university_id = course.university_id)
    (hok1 : db.fails DbOp.Course_findByPk = false)
    (hok2 : db.fails DbOp.Enrollment_findOne = false) :
    ((∃ e ∈ db.enrollments, e.user_id = user.id ∧ e.course_id = cid ∧ e.status = "enrolled") →
        checkCourseAccess db req hs = Result.pass req hs db) ∧
      ((¬ ∃ e ∈ db.enrollments, e.user_id = user.id ∧ e.course_id = cid ∧
            e.status = "enrolled") →
        checkCourseAccess db req hs
          = Result.send req hs db 403 "Access denied: Not enrolled in this course"
              "الوصول مرفوض: غير مسجل في هذه الدورة") := by
  have h1 : user.role ≠ "super_admin" := by rw [hrole]; decide
  have h2 : user.role ≠ "university_admin" := by rw [hrole]; decide
  rw [checkCourseAccess_of_course db req hs user cid course hu hid hne h1 h2 hok1 hc]
  have hiff := Enrollment_findOne_isSome_iff db user.id cid hok2
  constructor
  · intro hex
    obtain ⟨e, he⟩ := hiff.2 hex
    simp [hsame, hrole, he]
  · intro hno
    have hnone : db.Enrollment_findOne user.id cid = some none := by
      cases hf : db.Enrollment_findOne user.id cid with
      | none => simp [Db.Enrollment_findOne, hok2] at hf
      | some o =>
        cases o with
        | none => rfl
        | some e => exact absurd (hiff.1 ⟨e, hf⟩) hno
    simp [hsame, hrole, hnone]

/-- C8: for a principal with role `student` and an existing course of the principal's own
university (lookups answering), `checkCourseAccess` calls `next()` iff the enrollment table holds
a row with the principal's id, the course id and status `enrolled`; otherwise it answers 403
`Access denied: Not enrolled in this course`.  Rows whose status is `dropped`, `completed` or
`failed` do not grant access, and adding one `enrolled` row, nothing else changed, makes the same
request pass. -/
theorem checkCourseAccess_student_enrollment (db : Db) (req : Req)
    (hs : List (String × String)) (user : UserWithUniversity) (cid : String) (course : Course)
    (hu : req.user = some user) (hrole : user.role = "student")
    (hid : courseIdOf req = some cid) (hne : cid ≠ "")
    (hc : db.courses.find? (fun c => c.id == cid) = some course)
    (hsame : user.university_id = course.university_id)
    (hok1 : db.fails DbOp.Course_findByPk = false)
    (hok2 : db.fails DbOp.Enrollment_findOne = false) :
    ((checkCourseAccess db req hs).outcome = Outcome.next ↔
        ∃ e ∈ db.enrollments, e.user_id = user.id ∧ e.course_id = cid ∧ e.status = "enrolled") ∧
      ((¬ ∃ e ∈ db.enrollments, e.user_id = user.id ∧ e.course_id = cid ∧
            e.status = "enrolled") →
        checkCourseAccess db req hs
          = Result.send req hs db 403 "Access denied: Not enrolled in this course"
              "الوصول مرفوض: غير مسجل في هذه الدورة") ∧
      ((∀ e ∈ db.enrollments, e.user_id = user.id → e.course_id = cid →
            (e.status = "dropped" ∨ e.status = "completed" ∨ e.status = "failed")) →
        checkCourseAccess db req hs
          = Result.send req hs db 403 "Access denied: Not enrolled in this course"
              "الوصول مرفوض: غير مسجل في هذه الدورة") ∧
      (∀ e : Enrollment, e.user_id = user.id → e.course_id = cid → e.status = "enrolled" →
        checkCourseAccess { db with enrollments := db.enrollments ++ [e] } req hs
          = Result.pass req hs { db with enrollments := db.enrollments ++ [e] }) := by
  have key := checkCourseAccess_student db req hs user cid course hu hrole hid hne hc hsame
    hok1 hok2
  refine ⟨?_, key.2, ?_, ?_⟩
  · constructor
    · intro hnext
      by_contra hno
      rw [key.2 hno] at hnext
      simp [Result.send] at hnext
    · intro hex
      rw [key.1 hex]
      rfl
  · intro hall
    apply key.2
    rintro ⟨e, hmem, h1, h2, h3⟩
    rcases hall e hmem h1 h2 with h | h | h <;> rw [h3] at h <;> simp at h
  · intro e h1 h2 h3
    exact (checkCourseAccess_student { db with enrollments := db.enrollments ++ [e] } req hs
      user cid course hu hrole hid hne hc hsame hok1 hok2).1
      ⟨e, by simp, h1, h2, h3⟩

/-- C8, at a concrete input: the student `alice` asks for course `c1` of her university, where
her only enrollment is `dropped`. -/
theorem checkCourseAccess_student_enrollment_witness :
    checkCourseAccess
        { sampleDb with
          enrollments := [{ user_id := "alice", course_id := "c1", status := "dropped" }] }
        (courseReq alice) []
      = Result.send (courseReq alice) []
          { sampleDb with
            enrollments := [{ user_id := "alice", course_id := "c1", status := "dropped" }] }
          403 "Access denied: Not enrolled in this course"
          "الوصول مرفوض: غير مسجل في هذه الدورة" :=
  (checkCourseAccess_student_enrollment
    { sampleDb with
      enrollments := [{ user_id := "alice", course_id := "c1", status := "dropped" }] }
    (courseReq alice) [] { toUser := alice, university := none } "c1"
    { id := "c1", university_id := "u-A", instructor_id := "erin" } rfl rfl (by decide)
    (by decide) (by decide) (by decide) (by decide) (by decide)).2.1 (by decide)

/-- C9 at its failing inputs: `dave` is a professor of `uniA` but not the instructor of course
`c1`, and `erin` is a dean; neither is an administrator, neither is enrolled, the course exists in
their university, and `checkCourseAccess` calls `next()` for both. -/
theorem checkCourseAccess_unmatched_roles_pass :
    sampleDb.Course_findByPk "c1"
        = some (some { id := "c1", university_id := "u-A", instructor_id := "erin" }) ∧
      dave.role = "professor" ∧ dave.id ≠ "erin" ∧ erin.role = "dean" ∧
      checkCourseAccess sampleDb (courseReq dave) [] = Result.pass (courseReq dave) [] sampleDb ∧
      checkCourseAccess sampleDb (courseReq erin) [] = Result.pass (courseReq erin) [] sampleDb := by
  decide

/-- C10: for a principal whose role is neither `super_admin` nor `university_admin` and an
existing course whose `university_id` differs from the principal's (course lookup answering),
`checkCourseAccess` answers 403 `Access denied: Course belongs to different university` and does
not call `next()`, whatever the role, the instructor of the course and the enrollment table: the
tenant test comes before the ownership and enrollment tests. -/
theorem checkCourseAccess_tenant_scoping (db : Db) (req : Req) (hs : List (String × String))
    (user : UserWithUniversity) (cid : String) (course : Course)
    (hu : req.user = some user) (hid : courseIdOf req = some cid) (hne : cid ≠ "")
    (h1 : user.role ≠ "super_admin") (h2 : user.role ≠ "university_admin")
    (hok : db.fails DbOp.Course_findByPk = false)
    (hc : db.courses.find? (fun c => c.id == cid) = some course)
    (hdiff : user.university_id ≠ course.university_id) :
    checkCourseAccess db req hs
      = Result.send req hs db 403 "Access denied: Course belongs to different university"
          "الوصول مرفوض: الدورة تنتمي لجامعة مختلفة" := by
  rw [checkCourseAccess_of_course db req hs user cid course hu hid hne h1 h2 hok hc]
  simp [hdiff]

/-- C10, at a concrete input: `carol` of `uniB` is the instructor of record of a course of
`uniA`. -/
theorem checkCourseAccess_tenant_scoping_witness :
    checkCourseAccess
        { sampleDb with
          courses := [{ id := "c1", university_id := "u-A", instructor_id := "carol" }] }
        (courseReq carol) []
      = Result.send (courseReq carol) []
          { sampleDb with
            courses := [{ id := "c1", university_id := "u-A", instructor_id := "carol" }] }
          403 "Access denied: Course belongs to different university"
          "الوصول مرفوض: الدورة تنتمي لجامعة مختلفة" :=
  checkCourseAccess_tenant_scoping _ (courseReq carol) [] { toUser := carol, university := none }
    "c1" { id := "c1", university_id := "u-A", instructor_id := "carol" } rfl (by decide)
    (by decide) (by decide) (by decide) (by decide) (by decide) (by decide)

/-! ## Login -/

theorem User_findOne_none (db : Db) (email uid : String)
    (hok : db.fails DbOp.User_findOne = false)
    (h : ∀ u ∈ db.users, u.email = email → u.university_id ≠ uid) :
    db.User_findOne email uid = some none := by
  have hf : db.users.find? (fun u => u.email == email && u.university_id == uid) = none := by
    rw [List.find?_eq_none]
    intro u hu
    have := h u hu
    simpa using this
  simp [Db.User_findOne, hok, hf]

theorem User_findOne_some (db : Db) (email uid : String) (u : User)
    (view : Option UniversityView) (h : db.User_findOne email uid = some (some (u, view))) :
    u ∈ db.users ∧ u.email = email ∧ u.university_id = uid := by
  unfold Db.User_findOne at h
  split at h
  · simp at h
  · split at h
    · simp at h
    · rename_i u' hf
      simp only [Option.some.injEq, Prod.mk.injEq] at h
      have hp := List.find?_some hf
      simp only [Bool.and_eq_true, beq_iff_eq] at hp
      rw [← h.1]
      exact ⟨List.mem_of_find?_eq_some hf, hp.1, hp.2⟩

/-- C1: with a resolved tenant `T`, any token pair the login handler issues is issued for a user
row whose email is the request's email and whose `university_id` is `T.id` (the pair is
`generateToken` and `generateRefreshToken` of that user's id); and when every user with the
request's email belongs to another tenant (validation passed, lookup answering), the response is
401 `Invalid email or password` with no data, whatever the password. -/
theorem loginHandler_tenant_scoped (env : Env) (input : LoginInput) (db : Db) (req : Req)
    (hs : List (String × String)) (T : University) (hT : req.university = some T) :
    (∀ (r : Response) (d : LoginData),
        (loginHandler env input db req hs).outcome = Outcome.respond r → r.data = some d →
        ∃ u ∈ db.users, u.email = input.email ∧ u.university_id = T.id ∧ d.user.id = u.id ∧
          d.token = generateToken env u.id ∧ d.refreshToken = generateRefreshToken env u.id) ∧
      (input.validationErrors = false → db.fails DbOp.User_findOne = false →
        (∀ u ∈ db.users, u.email = input.email → u.university_id ≠ T.id) →
        loginHandler env input db req hs
          = Result.send req hs db 401 "Invalid email or password"
              "بريد إلكتروني أو كلمة مرور غير صحيحة") := by
  constructor
  · intro r d hout hdata
    unfold loginHandler at hout
    rw [hT] at hout
    simp only at hout
    split at hout
    · simp [Result.send] at hout
      rw [← hout] at hdata
      simp at hdata
    · split at hout
      · simp [loginError, Result.send] at hout
        rw [← hout] at hdata
        simp at hdata
      · simp [Result.send] at hout
        rw [← hout] at hdata
        simp at hdata
      · rename_i user view hfind
        obtain ⟨hmem, hemail, huid⟩ := User_findOne_some db _ _ user view hfind
        split at hout
        · simp [Result.send] at hout
          rw [← hout] at hdata
          simp at hdata
        · split at hout
          · simp [Result.send] at hout
            rw [← hout] at hdata
            simp at hdata
          · split at hout
            · simp [loginError, Result.send] at hout
              rw [← hout] at hdata
              simp at hdata
            · simp only [Outcome.respond.injEq] at hout
              rw [← hout] at hdata
              simp only [Option.some.injEq] at hdata
              rw [← hdata]
              exact ⟨user, hmem, hemail, huid, rfl, rfl, rfl⟩
  · intro hv hok hall
    simp [loginHandler, hv, hT, User_findOne_none db input.email T.id hok hall]

/-- C1, at a concrete input: `carol@unib.edu` exists only in `uniB`; under `uniA` the login is
answered 401 even with her password. -/
theorem loginHandler_tenant_scoped_witness :
    loginHandler sampleEnv
        { validationErrors := false, email := "carol@unib.edu", password := "pw-h3" } sampleDb
        { blankReq "/api/v1/auth/login" with university := some uniA } []
      = Result.send { blankReq "/api/v1/auth/login" with university := some uniA } [] sampleDb
          401 "Invalid email or password" "بريد إلكتروني أو كلمة مرور غير صحيحة" :=
  (loginHandler_tenant_scoped sampleEnv
    { validationErrors := false, email := "carol@unib.edu", password := "pw-h3" } sampleDb
    { blankReq "/api/v1/auth/login" with university := some uniA } [] uniA rfl).2 rfl
    (by decide) (by decide)

/-- C3, as stated, fails: under `uniA`, an unknown email is answered `Invalid email or
password` while the deactivated `bob` is answered `Account is deactivated`, so the two failures
are told apart by their message. -/
theorem loginHandler_inactive_distinguishable :
    (loginHandler sampleEnv
        { validationErrors := false, email := "nobody@unia.edu", password := "pw-h2" } sampleDb
        { blankReq "/api/v1/auth/login" with university := some uniA } []).outcome
      = Outcome.respond { status := 401, success := false, message := "Invalid email or password",
                          message_ar := "بريد إلكتروني أو كلمة مرور غير صحيحة" } ∧
    (loginHandler sampleEnv
        { validationErrors := false, email := "bob@unia.edu", password := "pw-h2" } sampleDb
        { blankReq "/api/v1/auth/login" with university := some uniA } []).outcome
      = Outcome.respond { status := 401, success := false, message := "Account is deactivated",
                          message_ar := "الحساب معطل" } := by
  decide

/-- C3, amended: with a resolved tenant (validation passed, lookup answering) the three login
failures all have status 401 and leave request and database unchanged; the message is the
generic `Invalid email or password` when no principal with that email exists in this tenant and
when the principal is active but the password is wrong, and it is `Account is deactivated` when
the principal is found but inactive. -/
theorem loginHandler_failures (env : Env) (input : LoginInput) (db : Db) (req : Req)
    (hs : List (String × String)) (T : University) (hT : req.university = some T)
    (hv : input.validationErrors = false) (hok : db.fails DbOp.User_findOne = false) :
    ((∀ u ∈ db.users, u.email = input.email → u.university_id ≠ T.id) →
        loginHandler env input db req hs
          = Result.send req hs db 401 "Invalid email or password"
              "بريد إلكتروني أو كلمة مرور غير صحيحة") ∧
      (∀ (u : User) (view : Option UniversityView),
        db.User_findOne input.email T.id = some (some (u, view)) → u.is_active = false →
        loginHandler env input db req hs
          = Result.send req hs db 401 "Account is deactivated" "الحساب معطل") ∧
      (∀ (u : User) (view : Option UniversityView),
        db.User_findOne input.email T.id = some (some (u, view)) → u.is_active = true →
        u.validatePassword env input.password = false →
        loginHandler env input db req hs
          = Result.send req hs db 401 "Invalid email or password"
              "بريد إلكتروني أو كلمة مرور غير صحيحة") := by
  refine ⟨?_, ?_, ?_⟩
  · intro hall
    simp [loginHandler, hv, hT, User_findOne_none db input.email T.id hok hall]
  · intro u view hf hact
    simp [loginHandler, hv, hT, hf, hact]
  · intro u view hf hact hpw
    simp [loginHandler, hv, hT, hf, hact, hpw]

/-- C3 amended, at a concrete input: `alice` under `uniA` with a wrong password. -/
theorem loginHandler_failures_witness :
    loginHandler sampleEnv
        { validationErrors := false, email := "alice@unia.edu", password := "guess" } sampleDb
        { blankReq "/api/v1/auth/login" with university := some uniA } []
      = Result.send { blankReq "/api/v1/auth/login" with university := some uniA } [] sampleDb
          401 "Invalid email or password" "بريد إلكتروني أو كلمة مرور غير صحيحة" :=
  (loginHandler_failures sampleEnv
    { validationErrors := false, email := "alice@unia.edu", password := "guess" } sampleDb
    { blankReq "/api/v1/auth/login" with university := some uniA } [] uniA rfl rfl
    (by decide)).2.2 alice
    (some { id := "u-A", name := "University A", name_ar := "الجامعة أ", code := "UNIA",
            domain := "uniA" })
    (by decide) (by decide) (by decide)

/-! ## The chains of `app.js` -/

/-- C2 at its failing input: `uniA` is active, `alice` is an active principal of `uniA`, the
request names `uniA` in the `X-University-Domain` header and carries her email and correct
password, and the handler alone, given the tenant, answers 200 with a token pair; but through
the chain of `app.js` the path `/api/v1/auth/login` is bypassed by `tenantMiddleware`, no tenant
is attached, and `requireTenant` answers 400. -/
theorem loginChain_rejects_valid_login :
    (loginHandler sampleEnv
        { validationErrors := false, email := "alice@unia.edu", password := "pw-h1" } sampleDb
        { blankReq "/api/v1/auth/login" with
          headers := { x_university_domain := some "uniA", authorization := none,
                       host := some "uniA.example.com" },
          body := { university_domain := some "uniA", course_id := none },
          university := some uniA } []).outcome
      = Outcome.respond
          { status := 200, success := true, message := "Login successful",
            message_ar := "تم تسجيل الدخول بنجاح",
            data := some
              { user := { id := "alice", email := "alice@unia.edu", role := "student",
                          preferred_language := "ar",
                          university := some { id := "u-A", name := "University A",
                                               name_ar := "الجامعة أ", code := "UNIA",
                                               domain := "uniA" } },
                token := "s3cret:alice", refreshToken := "r3fresh:alice" } } ∧
    loginChain sampleEnv
        { validationErrors := false, email := "alice@unia.edu", password := "pw-h1" } sampleDb
        { blankReq "/api/v1/auth/login" with
          headers := { x_university_domain := some "uniA", authorization := none,
                       host := some "uniA.example.com" },
          body := { university_domain := some "uniA", course_id := none } } []
      = Result.send
        { blankReq "/api/v1/auth/login" with
          headers := { x_university_domain := some "uniA", authorization := none,
                       host := some "uniA.example.com" },
          body := { university_domain := some "uniA", course_id := none } } [] sampleDb
        400 "University context is required" "سياق الجامعة مطلوب" := by
  decide

theorem authMiddleware_active (env : Env) (db : Db) (req : Req) (hs : List (String × String))
    (tok i : String) (u : User)
    (htok : bearerToken req.headers.authorization = some tok) (hne : tok ≠ "")
    (hver : env.jwtVerify tok env.JWT_SECRET = JwtResult.decoded (some i))
    (hdb : db.fails DbOp.User_findByPk = false)
    (hu : db.users.find? (fun u => u.id == i) = some u) (hact : u.is_active = true)
    (huni : ∀ t : University,
      db.universities.find? (fun t => t.id == u.university_id) = some t → t.is_active = true) :
    authMiddleware env db req hs =
      match db.User_update_last_login
          { toUser := { u with password := none },
            university := db.universities.find? (fun t => t.id == u.university_id) }
          env.now with
      | none => notAuthorized req hs db
      | some (user', db') => Result.pass { req with user := some user' } hs db' := by
  rw [authMiddleware_of_decoded env db req hs tok (some i) htok hne hver,
    User_findByPk_auth_some db i u hdb hu]
  have hunib : (match db.universities.find? (fun t => t.id == u.university_id) with
      | some university => !university.is_active
      | none => false) = false := by
    cases hf : db.universities.find? (fun t => t.id == u.university_id) with
    | none => rfl
    | some t => simp [huni t hf]
  simp [hact, hunib]

/-- C6, as stated, fails: `alice` is an active student of the active `uniA`, her access token
verifies, the request to `/api/v1/courses` names the active `uniC`, and the chain in front of the
protected routers calls `next()` with `uniC` attached as tenant and `alice` as principal: the
route handler runs and no 403 is sent. -/
theorem protectedChain_cross_tenant_passes :
    alice.university_id ≠ uniC.id ∧ alice.role ≠ "super_admin" ∧
      (protectedChain sampleEnv sampleDb
        { blankReq "/api/v1/courses" with
          headers := { x_university_domain := some "uniC",
                       authorization := some "Bearer s3cret:alice", host := none } } []).outcome
        = Outcome.next ∧
      (protectedChain sampleEnv sampleDb
        { blankReq "/api/v1/courses" with
          headers := { x_university_domain := some "uniC",
                       authorization := some "Bearer s3cret:alice", host := none } }
          []).req.university
        = some uniC ∧
      (protectedChain sampleEnv sampleDb
        { blankReq "/api/v1/courses" with
          headers := { x_university_domain := some "uniC",
                       authorization := some "Bearer s3cret:alice", host := none } } []).req.user
        = some { toUser := { alice with last_login := some 1000, password := none },
                 university := some uniA } := by
  decide

/-- C6, amended: the chain in front of the protected routers is `tenantMiddleware` then
`authMiddleware`, and neither compares the principal's tenant with the resolved tenant.  For a
request on a path that is not bypassed whose candidate domain resolves to the active tenant `T`,
with the id and name of `T` legal header values, and whose access token verifies to an existing
active principal `u` with its university absent or active (lookups and the `last_login` write
working), the chain calls `next()`, so the route handler runs, with `T` attached as
`req.university` and `u` as `req.user`, whether or not `u.university_id` equals `T.id` and
whatever the role of `u`. -/
theorem protectedChain_no_tenant_stage (env : Env) (db : Db) (req : Req)
    (hs : List (String × String)) (d tok i : String) (T : University) (u : User)
    (hskip : isSkipRoute req.path = false) (hd : universityDomain req = some d) (hned : d ≠ "")
    (hok1 : db.fails DbOp.University_findOne = false)
    (hT : db.universities.find? (fun t => t.domain == d && t.is_active) = some T)
    (hid : validHeaderValue T.id = true) (hname : validHeaderValue T.name = true)
    (htok : bearerToken req.headers.authorization = some tok) (hne : tok ≠ "")
    (hver : env.jwtVerify tok env.JWT_SECRET = JwtResult.decoded (some i))
    (hok2 : db.fails DbOp.User_findByPk = false)
    (hu : db.users.find? (fun u => u.id == i) = some u) (hact : u.is_active = true)
    (huni : ∀ t : University,
      db.universities.find? (fun t => t.id == u.university_id) = some t → t.is_active = true)
    (hok3 : db.fails DbOp.User_update = false) :
    (protectedChain env db req hs).outcome = Outcome.next ∧
      (protectedChain env db req hs).req.university = some T ∧
      ∃ user', (protectedChain env db req hs).req.user = some user' ∧ user'.id = u.id ∧
        user'.university_id = u.university_id ∧ user'.role = u.role := by
  have e1 : tenantMiddleware db req hs
      = Result.pass { req with university := some T, universityId := some T.id }
          (setHeader (setHeader hs "X-University-ID" T.id) "X-University-Name" T.name) db := by
    rw [tenantMiddleware_of_candidate db req hs d hskip hd hned, tenantLookup_found db req hs d T
      hok1 hT hid hname]
  have e2 := authMiddleware_active env db
    { req with university := some T, universityId := some T.id }
    (setHeader (setHeader hs "X-University-ID" T.id) "X-University-Name" T.name)
    tok i u htok hne hver hok2 hu hact huni
  simp only [protectedChain, e1, Result.andThen, Result.pass, e2, Db.User_update_last_login, hok3]
  exact ⟨rfl, rfl, _, rfl, rfl, rfl, rfl⟩

/-- C6 amended, at a concrete input: the token of `alice` of `uniA` on a request that names
`uniC`. -/
theorem protectedChain_no_tenant_stage_witness :
    (protectedChain sampleEnv sampleDb
        { blankReq "/api/v1/courses" with
          headers := { x_university_domain := some "uniC",
                       authorization := some "Bearer s3cret:alice", host := none } } []).outcome
      = Outcome.next :=
  (protectedChain_no_tenant_stage sampleEnv sampleDb
    { blankReq "/api/v1/courses" with
      headers := { x_university_domain := some "uniC",
                   authorization := some "Bearer s3cret:alice", host := none } } []
    "uniC" "s3cret:alice" "alice" uniC alice (by decide) (by decide) (by decide) (by decide)
    (by decide) (by decide) (by decide) (by decide) (by decide) (by decide) (by decide)
    (by decide) (by decide)
    (fun t ht => by
      have e : t = uniA := (Option.some.inj ht).symm
      rw [e]
      rfl)
    (by decide)).1

/-! ## Refresh -/

theorem refreshHandler_of_decoded (env : Env) (db : Db) (tok : String) (id : Option String)
    (hne : tok ≠ "")
    (hver : env.jwtVerify tok env.REFRESH_TOKEN_SECRET = JwtResult.decoded id) :
    refreshHandler env db (some tok) =
      match db.User_findByPk id with
      | none => invalidRefreshToken db
      | some none => invalidRefreshToken db
      | some (some user) =>
        if !user.is_active then invalidRefreshToken db
        else
          { db := db, status := 200,
            body := { success := true, message := "Token refreshed successfully",
                      message_ar := "تم تحديث الرمز بنجاح",
                      data := some { token := generateToken env user.id,
                                     refreshToken := generateRefreshToken env user.id } } } := by
  have ht : truthy (some tok) = true := (truthy_some_iff tok).2 hne
  simp only [refreshHandler, ht, Bool.not_true, Bool.false_eq_true, if_false, Option.getD_some,
    hver]

theorem refreshHandler_verify_throws (env : Env) (db : Db) (tok : String) (hne : tok ≠ "")
    (hver : ∀ id, env.jwtVerify tok env.REFRESH_TOKEN_SECRET ≠ JwtResult.decoded id) :
    refreshHandler env db (some tok) = invalidRefreshToken db := by
  have ht : truthy (some tok) = true := (truthy_some_iff tok).2 hne
  simp only [refreshHandler, ht, Bool.not_true, Bool.false_eq_true, if_false,
    Option.getD_some]

theorem refreshHandler_data (env : Env) (db : Db) (tok : Option String) (pair : TokenPair)
    (h : (refreshHandler env db tok).body.data = some pair) :
    ∃ (t : String) (i : Option String) (user : UserWithUniversity),
      tok = some t ∧ t ≠ "" ∧ env.jwtVerify t env.REFRESH_TOKEN_SECRET = JwtResult.decoded i ∧
      db.User_findByPk i = some (some user) ∧ user.is_active = true ∧
      pair = { token := generateToken env user.id,
               refreshToken := generateRefreshToken env user.id } := by
  cases tok with
  | none => simp [refreshHandler, truthy] at h
  | some t =>
    by_cases hne : t = ""
    · simp [refreshHandler, truthy, hne] at h
    · cases hv : env.jwtVerify t env.REFRESH_TOKEN_SECRET with
      | decoded i =>
        rw [refreshHandler_of_decoded env db t i hne hv] at h
        cases hf : db.User_findByPk i with
        | none => simp [hf, invalidRefreshToken] at h
        | some o =>
          cases o with
          | none => simp [hf, invalidRefreshToken] at h
          | some user =>
            cases hact : user.is_active with
            | false => simp [hf, hact, invalidRefreshToken] at h
            | true =>
              simp [hf, hact] at h
              exact ⟨t, i, user, rfl, hne, hv, hf, hact, h.symm⟩
      | JsonWebTokenError =>
        have ht : truthy (some t) = true := (truthy_some_iff t).2 hne
        simp [refreshHandler, ht, hv, invalidRefreshToken] at h
      | TokenExpiredError =>
        have ht : truthy (some t) = true := (truthy_some_iff t).2 hne
        simp [refreshHandler, ht, hv, invalidRefreshToken] at h
      | NotBeforeError =>
        have ht : truthy (some t) = true := (truthy_some_iff t).2 hne
        simp [refreshHandler, ht, hv, invalidRefreshToken] at h

/-- C21: `/refresh` verifies under the refresh secret only.  For every principal id, when the
(non-empty) access token `generateToken` signs for it under the access secret does not verify
under the refresh secret, the handler answers 401 `Invalid refresh token` with no pair and
leaves the database as it was.  And whenever the handler does answer with a pair, the body field
is a non-empty token that verifies (so is unexpired) under the refresh secret, as the tokens of
`generateRefreshToken` do, to the id of an existing active principal, for whom the pair is
issued. -/
theorem refreshHandler_rejects_access_token (env : Env) (db : Db) (id : String)
    (hne : generateToken env id ≠ "")
    (hcross : ∀ p, env.jwtVerify (generateToken env id) env.REFRESH_TOKEN_SECRET
      ≠ JwtResult.decoded p) :
    refreshHandler env db (some (generateToken env id))
        = { db := db, status := 401,
            body := { success := false, message := "Invalid refresh token",
                      message_ar := "رمز تحديث غير صالح", data := none } } ∧
      (∀ (tok : Option String) (pair : TokenPair),
        (refreshHandler env db tok).body.data = some pair →
        ∃ (t : String) (i : Option String) (user : UserWithUniversity),
          tok = some t ∧ t ≠ "" ∧
          env.jwtVerify t env.REFRESH_TOKEN_SECRET = JwtResult.decoded i ∧
          db.User_findByPk i = some (some user) ∧ user.is_active = true ∧
          pair = { token := generateToken env user.id,
                   refreshToken := generateRefreshToken env user.id }) := by
  refine ⟨?_, fun tok pair h => refreshHandler_data env db tok pair h⟩
  rw [refreshHandler_verify_throws env db _ hne hcross]
  rfl

/-- C21, at a concrete input: the access token of `alice` presented to `/refresh`. -/
theorem refreshHandler_rejects_access_token_witness :
    refreshHandler sampleEnv sampleDb (some (generateToken sampleEnv "alice"))
      = { db := sampleDb, status := 401,
          body := { success := false, message := "Invalid refresh token",
                    message_ar := "رمز تحديث غير صالح", data := none } } :=
  (refreshHandler_rejects_access_token sampleEnv sampleDb "alice" (by decide)
    (fun p h => by
      have e : sampleEnv.jwtVerify (generateToken sampleEnv "alice")
          sampleEnv.REFRESH_TOKEN_SECRET = JwtResult.JsonWebTokenError := by decide
      rw [e] at h
      exact JwtResult.noConfusion h)).1

theorem refreshHandler_active (env : Env) (db : Db) (r i : String) (u : User) (hne : r ≠ "")
    (hver : env.jwtVerify r env.REFRESH_TOKEN_SECRET = JwtResult.decoded (some i))
    (hok : db.fails DbOp.User_findByPk = false)
    (hu : db.users.find? (fun u => u.id == i) = some u) (hact : u.is_active = true) :
    u.id = i ∧
    refreshHandler env db (some r)
      = { db := db, status := 200,
          body := { success := true, message := "Token refreshed successfully",
                    message_ar := "تم تحديث الرمز بنجاح",
                    data := some { token := generateToken env i,
                                   refreshToken := generateRefreshToken env i } } } := by
  have hid : u.id = i := by
    have hp := List.find?_some hu
    simpa using hp
  refine ⟨hid, ?_⟩
  rw [refreshHandler_of_decoded env db r (some i) hne hver, User_findByPk_some db i u hok hu]
  simp [hact, hid]

/-- C22: for an unexpired refresh token `r` that verifies to the id `i` of an existing active
principal (user lookup answering), `/refresh` answers 200 with the pair `generateToken i`,
`generateRefreshToken i`; given that freshly signed tokens verify under their own secret, the
new `token` verifies under the access secret to `i` and the new `refreshToken` under the refresh
secret to `i`.  The handler leaves the database as it was, so a second exchange of the same `r`,
in any environment (a later clock included) in which `r` still verifies to `i`, answers 200 in
the same way. -/
theorem refreshHandler_round_trip (env : Env) (db : Db) (r i : String) (u : User) (hne : r ≠ "")
    (hver : env.jwtVerify r env.REFRESH_TOKEN_SECRET = JwtResult.decoded (some i))
    (hok : db.fails DbOp.User_findByPk = false)
    (hu : db.users.find? (fun u => u.id == i) = some u) (hact : u.is_active = true)
    (hA : env.jwtVerify (generateToken env i) env.JWT_SECRET = JwtResult.decoded (some i))
    (hR : env.jwtVerify (generateRefreshToken env i) env.REFRESH_TOKEN_SECRET
      = JwtResult.decoded (some i)) :
    (refreshHandler env db (some r)).status = 200 ∧
      (∃ pair : TokenPair, (refreshHandler env db (some r)).body.data = some pair ∧
        pair.token = generateToken env u.id ∧ pair.refreshToken = generateRefreshToken env u.id ∧
        env.jwtVerify pair.token env.JWT_SECRET = JwtResult.decoded (some u.id) ∧
        env.jwtVerify pair.refreshToken env.REFRESH_TOKEN_SECRET
          = JwtResult.decoded (some u.id)) ∧
      (refreshHandler env db (some r)).db = db ∧
      (∀ env' : Env, env'.jwtVerify r env'.REFRESH_TOKEN_SECRET = JwtResult.decoded (some i) →
        refreshHandler env' (refreshHandler env db (some r)).db (some r)
          = { db := db, status := 200,
              body := { success := true, message := "Token refreshed successfully",
                        message_ar := "تم تحديث الرمز بنجاح",
                        data := some { token := generateToken env' i,
                                       refreshToken := generateRefreshToken env' i } } }) := by
  obtain ⟨hid, h1⟩ := refreshHandler_active env db r i u hne hver hok hu hact
  rw [h1]
  refine ⟨rfl, ⟨_, rfl, ?_, ?_, ?_, ?_⟩, rfl, ?_⟩
  · rw [hid]
  · rw [hid]
  · rw [hid]; exact hA
  · rw [hid]; exact hR
  · intro env' hver'
    exact (refreshHandler_active env' db r i u hne hver' hok hu hact).2

/-- C22, at a concrete input: the refresh token of `alice`. -/
theorem refreshHandler_round_trip_witness :
    (refreshHandler sampleEnv sampleDb (some "r3fresh:alice")).status = 200 :=
  (refreshHandler_round_trip sampleEnv sampleDb "r3fresh:alice" "alice" alice (by decide)
    (by decide) (by decide) (by decide) (by decide) (by decide) (by decide)).1

/-- C30: for an unexpired refresh token that verifies to the id of an existing active principal
whose university row has `is_active` false (user lookup answering), `/refresh` answers 200 with
a new access and refresh pair, while `authMiddleware` answers every access token that verifies
to that same id with 401 `University is deactivated`, attaching no principal. -/
theorem refresh_and_auth_disagree (env : Env) (db : Db) (r i : String) (u : User)
    (t : University) (hne : r ≠ "")
    (hver : env.jwtVerify r env.REFRESH_TOKEN_SECRET = JwtResult.decoded (some i))
    (hok : db.fails DbOp.User_findByPk = false)
    (hu : db.users.find? (fun u => u.id == i) = some u) (hact : u.is_active = true)
    (ht : db.universities.find? (fun t => t.id == u.university_id) = some t)
    (hoff : t.is_active = false) :
    refreshHandler env db (some r)
        = { db := db, status := 200,
            body := { success := true, message := "Token refreshed successfully",
                      message_ar := "تم تحديث الرمز بنجاح",
                      data := some { token := generateToken env i,
                                     refreshToken := generateRefreshToken env i } } } ∧
      (∀ (req : Req) (hs : List (String × String)) (tok : String),
        bearerToken req.headers.authorization = some tok → tok ≠ "" →
        env.jwtVerify tok env.JWT_SECRET = JwtResult.decoded (some i) →
        authMiddleware env db req hs
          = Result.send req hs db 401 "University is deactivated" "الجامعة معطلة") := by
  refine ⟨(refreshHandler_active env db r i u hne hver hok hu hact).2, ?_⟩
  intro req hs tok htok hnet hvt
  rw [authMiddleware_of_decoded env db req hs tok (some i) htok hnet hvt,
    User_findByPk_auth_some db i u hok hu]
  simp [hact, ht, hoff]

/-- C30, at a concrete input: `carol` is active and her university `uniB` is deactivated; her
refresh token is exchanged. -/
theorem refresh_and_auth_disagree_witness :
    refreshHandler sampleEnv sampleDb (some "r3fresh:carol")
      = { db := sampleDb, status := 200,
          body := { success := true, message := "Token refreshed successfully",
                    message_ar := "تم تحديث الرمز بنجاح",
                    data := some { token := generateToken sampleEnv "carol",
                                   refreshToken := generateRefreshToken sampleEnv "carol" } } } :=
  (refresh_and_auth_disagree sampleEnv sampleDb "r3fresh:carol" "carol" carol uniB (by decide)
    (by decide) (by decide) (by decide) (by decide) (by decide) (by decide)).1

/-! ## Error translation -/

theorem errorHandler_generic (env : Env) (err : Err) (req : Req) (statusCode : Nat)
    (h : isPersistenceError err = false) :
    errorHandler env err req statusCode =
      ((classify err statusCode).1,
        { success := false, message := (classify err statusCode).2,
          message_ar := if errorLanguage req == "ar" then
              (getArabicMessage (classify err statusCode).2).bind ArabicValue.toJson else none,
          errors := none, field := none,
          stack := if env.NODE_ENV == some "development" then err.stack else none,
          timestamp := some env.now, path := some req.originalUrl,
          method := some req.method }) := by
  simp only [isPersistenceError, Bool.or_eq_false_iff] at h
  simp [errorHandler, h.1.1, h.1.2, h.2]

/-- C23: `errorHandler` answers a `SequelizeValidationError` with 400, message `Validation
Error` and an `errors` list holding, for each item in order, its path as `field` and its message;
a `SequelizeUniqueConstraintError` with 409, `Resource already exists` and `field` the first
item's path, or `unknown` when there is no item or no non-empty path; a
`SequelizeForeignKeyConstraintError` with 400; an error named `JsonWebTokenError` or
`TokenExpiredError` (that carries no upload code) with 401 and `Invalid token` or `Token
expired`; and an error with code `LIMIT_FILE_SIZE`, `LIMIT_FILE_COUNT` or
`LIMIT_UNEXPECTED_FILE` (that is not a persistence error) with 400. -/
theorem errorHandler_classification (env : Env) (err : Err) (req : Req) (statusCode : Nat) :
    (err.name = "SequelizeValidationError" →
        (errorHandler env err req statusCode).1 = 400 ∧
        (errorHandler env err req statusCode).2.message = "Validation Error" ∧
        (errorHandler env err req statusCode).2.errors
          = some (err.errors.map (fun e => { field := e.path, message := e.message }))) ∧
      (err.name = "SequelizeUniqueConstraintError" →
        (errorHandler env err req statusCode).1 = 409 ∧
        (errorHandler env err req statusCode).2.message = "Resource already exists" ∧
        (errorHandler env err req statusCode).2.field
          = (match err.errors with
             | [] => some "unknown"
             | e :: _ => if truthy e.path then e.path else some "unknown")) ∧
      (err.name = "SequelizeForeignKeyConstraintError" →
        (errorHandler env err req statusCode).1 = 400) ∧
      (err.name = "JsonWebTokenError" → isUploadError err = false →
        (errorHandler env err req statusCode).1 = 401 ∧
        (errorHandler env err req statusCode).2.message = "Invalid token") ∧
      (err.name = "TokenExpiredError" → isUploadError err = false →
        (errorHandler env err req statusCode).1 = 401 ∧
        (errorHandler env err req statusCode).2.message = "Token expired") ∧
      (isUploadError err = true → isPersistenceError err = false →
        (errorHandler env err req statusCode).1 = 400) := by
  refine ⟨?_, ?_, ?_, ?_, ?_, ?_⟩
  · intro h
    simp [errorHandler, h]
  · intro h
    cases he : err.errors with
    | nil => simp [errorHandler, h, he, jsOr, truthy]
    | cons e es => simp [errorHandler, h, he, jsOr]
  · intro h
    simp [errorHandler, h]
  · intro h hu
    have hp : isPersistenceError err = false := by simp [isPersistenceError, h]
    simp only [isUploadError, Bool.or_eq_false_iff] at hu
    rw [errorHandler_generic env err req statusCode hp]
    simp [classify, h, hu.1.1, hu.1.2, hu.2]
  · intro h hu
    have hp : isPersistenceError err = false := by simp [isPersistenceError, h]
    simp only [isUploadError, Bool.or_eq_false_iff] at hu
    rw [errorHandler_generic env err req statusCode hp]
    simp [classify, h, hu.1.1, hu.1.2, hu.2]
  · intro hu hp
    rw [errorHandler_generic env err req statusCode hp]
    simp only [isUploadError, Bool.or_eq_true] at hu
    simp only [classify]
    rcases hu with (hu | hu) | hu
    · have hc : err.code = some "LIMIT_FILE_SIZE" := by simpa using hu
      simp [hc]
    · have hc : err.code = some "LIMIT_FILE_COUNT" := by simpa using hu
      simp [hc]
    · have hc : err.code = some "LIMIT_UNEXPECTED_FILE" := by simpa using hu
      simp [hc]

theorem classify_unclassified (err : Err) (statusCode : Nat) (h : isClassified err = false) :
    classify err statusCode = (if statusCode == 200 then 500 else statusCode, err.message) := by
  simp only [isClassified, isPersistenceError, isTokenError, isUploadError,
    Bool.or_eq_false_iff, Bool.and_eq_false_iff] at h
  obtain ⟨⟨⟨_, ht⟩, hu⟩, hc⟩ := h
  have hc' : (err.name == "CastError" && err.kind == some "ObjectId") = false := by
    rcases hc with hc | hc <;> simp [hc]
  simp [classify, hc', ht.1, ht.2, hu.1.1, hu.1.2, hu.2]

/-- C24, as stated, fails: the error `notFound` passes on matches none of the classified kinds,
`notFound` has set the status 404 before the handler runs, and `errorHandler` answers 404, not
500. -/
theorem errorHandler_keeps_status_set :
    isClassified (notFound unknownReq).2 = false ∧ (notFound unknownReq).1 = 404 ∧
      (errorHandler sampleEnv (notFound unknownReq).2 unknownReq (notFound unknownReq).1).1
        = 404 := by
  decide

/-- C24, amended: for every error that matches none of the classified kinds, `errorHandler`
answers with `success` false and the error's own message; the status is 500 when the response
status was still 200 when the handler ran, and otherwise the status already set on the response
(such as the 404 set by `notFound`). -/
theorem errorHandler_unclassified (env : Env) (err : Err) (req : Req) (statusCode : Nat)
    (h : isClassified err = false) :
    (errorHandler env err req statusCode).1 = (if statusCode = 200 then 500 else statusCode) ∧
      (errorHandler env err req statusCode).2.success = false ∧
      (errorHandler env err req statusCode).2.message = err.message ∧
      (errorHandler env err req 200).1 = 500 := by
  have hp : isPersistenceError err = false := by
    simp only [isClassified, Bool.or_eq_false_iff] at h
    exact h.1.1.1
  rw [errorHandler_generic env err req statusCode hp, errorHandler_generic env err req 200 hp,
    classify_unclassified err statusCode h, classify_unclassified err 200 h]
  by_cases hs : statusCode = 200 <;> simp [hs]

/-- C24 amended, at a concrete input: the error of `notFound` with the status still 200. -/
theorem errorHandler_unclassified_witness :
    (errorHandler sampleEnv (notFound unknownReq).2 unknownReq 200).1 = 500 :=
  (errorHandler_unclassified sampleEnv (notFound unknownReq).2 unknownReq 200 (by decide)).1

theorem getArabicMessage_key :
    ∀ kv ∈ arabicMessages, getArabicMessage kv.1 = some (ArabicValue.text kv.2) := by
  decide

theorem getArabicMessage_not_key (m : String) (h : ∀ kv ∈ arabicMessages, kv.1 ≠ m)
    (hproto : m ≠ "__proto__") : (getArabicMessage m).bind ArabicValue.toJson = none := by
  have hf : arabicMessages.find? (fun kv => kv.1 == m) = none := by
    rw [List.find?_eq_none]
    intro kv hkv
    simpa using h kv hkv
  simp only [getArabicMessage, hf]
  by_cases hc : objectPrototypeFunctions.contains m = true
  · simp [hproto, hc, ArabicValue.toJson]
  · simp [hproto, ArabicValue.toJson]

/-- C25, as stated, fails: for an expired-token error on a request with no principal and no
`Accept-Language`, the final message `Token expired` is a key of the table, yet the response has
no `message_ar`. -/
theorem errorHandler_key_without_message_ar :
    (errorHandler sampleEnv expiredError unknownReq 200).2.message = "Token expired" ∧
      getArabicMessage "Token expired" = some (ArabicValue.text "انتهت صلاحية الرمز") ∧
      (errorHandler sampleEnv expiredError unknownReq 200).2.message_ar = none := by
  decide

/-- C25, amended: `message_ar` is added by the generic response only, and only when the language
computed by `errorHandler` is `ar`.  For every error that is not a Sequelize validation,
uniqueness or foreign-key error: when the language is `ar` and the final message is a key of the
Arabic table, the response carries `message_ar` equal to the table's counterpart; when the
language is not `ar` it carries no `message_ar`; and when the final message is not a key of the
table (nor the inherited property name `__proto__`) it carries no `message_ar`. -/
theorem errorHandler_message_ar (env : Env) (err : Err) (req : Req) (statusCode : Nat)
    (h : isPersistenceError err = false) :
    (errorLanguage req = "ar" →
        ∀ kv ∈ arabicMessages, (errorHandler env err req statusCode).2.message = kv.1 →
          (errorHandler env err req statusCode).2.message_ar = some (MessageAr.str kv.2)) ∧
      (errorLanguage req ≠ "ar" →
        (errorHandler env err req statusCode).2.message_ar = none) ∧
      ((∀ kv ∈ arabicMessages, kv.1 ≠ (errorHandler env err req statusCode).2.message) →
        (errorHandler env err req statusCode).2.message ≠ "__proto__" →
        (errorHandler env err req statusCode).2.message_ar = none) := by
  rw [errorHandler_generic env err req statusCode h]
  refine ⟨?_, ?_, ?_⟩
  · intro hl kv hkv hm
    simp only at hm
    simp [hl, hm, getArabicMessage_key kv hkv, ArabicValue.toJson]
  · intro hl
    simp [hl]
  · intro hk hp
    simp only at hk hp
    simp [getArabicMessage_not_key _ hk hp]

/-- C25 amended, at a concrete input: an expired-token error on a request with
`Accept-Language: ar`. -/
theorem errorHandler_message_ar_witness :
    (errorHandler sampleEnv expiredError
        { unknownReq with
          headers := { x_university_domain := none, authorization := none, host := none,
                       accept_language := some "ar" } } 200).2.message_ar
      = some (MessageAr.str "انتهت صلاحية الرمز") :=
  (errorHandler_message_ar sampleEnv expiredError
    { unknownReq with
      headers := { x_university_domain := none, authorization := none, host := none,
                   accept_language := some "ar" } } 200 (by decide)).1 (by decide)
    ("Token expired", "انتهت صلاحية الرمز") (by decide) (by decide)

/-- C26, as stated, fails: the response to a Sequelize validation error has `success` false and
a message but no `timestamp`, no `path` and no `method`. -/
theorem errorHandler_validation_without_metadata :
    errorHandler sampleEnv validationError unknownReq 200
      = (400, { success := false, message := "Validation Error", message_ar := none,
                errors := some [{ field := some "email", message := "bad email" },
                                { field := some "name", message := "too short" }],
                field := none, stack := none, timestamp := none, path := none,
                method := none }) := by
  decide

/-- C26, amended: every response of `errorHandler` has `success` false and a message.  The
generic response (every failure kind other than the persistence validation, uniqueness and
foreign-key failures) also has the fields `timestamp`, `path` (the request's original URL) and
`method`; the three persistence kinds are answered early, with the message and their own detail
and without those three fields.  When `NODE_ENV` is `production`, no response of `errorHandler`
carries a stack trace. -/
theorem errorHandler_metadata (env : Env) (err : Err) (req : Req) (statusCode : Nat) :
    (errorHandler env err req statusCode).2.success = false ∧
      (isPersistenceError err = false →
        (errorHandler env err req statusCode).2.timestamp = some env.now ∧
        (errorHandler env err req statusCode).2.path = some req.originalUrl ∧
        (errorHandler env err req statusCode).2.method = some req.method) ∧
      (isPersistenceError err = true →
        (errorHandler env err req statusCode).2.timestamp = none ∧
        (errorHandler env err req statusCode).2.path = none ∧
        (errorHandler env err req statusCode).2.method = none) ∧
      (env.NODE_ENV = some "production" →
        (errorHandler env err req statusCode).2.stack = none) := by
  by_cases h1 : err.name = "SequelizeValidationError"
  · simp [errorHandler, isPersistenceError, h1, earlyStack]
    exact fun hp hn => absurd hp hn
  · by_cases h2 : err.name = "SequelizeUniqueConstraintError"
    · simp [errorHandler, isPersistenceError, h2, earlyStack]
      exact fun hp hn => absurd hp hn
    · by_cases h3 : err.name = "SequelizeForeignKeyConstraintError"
      · simp [errorHandler, isPersistenceError, h3, earlyStack]
        exact fun hp hn => absurd hp hn
      · have hp : isPersistenceError err = false := by simp [isPersistenceError, h1, h2, h3]
        rw [errorHandler_generic env err req statusCode hp]
        refine ⟨rfl, fun _ => ⟨rfl, rfl, rfl⟩, ?_, ?_⟩
        · intro hc
          rw [hp] at hc
          exact absurd hc (by decide)
        · intro hprod
          simp [hprod]

/-- C29 at its failing input: `dave` is attached and prefers `en`, the request's
`Accept-Language` is `en-US`, and the error is a malformed-token error; `errorHandler` computes
the language `ar` and the response carries `message_ar`. -/
theorem errorHandler_language_ignores_preference :
    (daveReq.user.map (fun u => u.preferred_language)) = some "en" ∧
      daveReq.headers.accept_language = some "en-US" ∧
      errorLanguage daveReq = "ar" ∧
      (errorHandler sampleEnv malformedError daveReq 200).2.message = "Invalid token" ∧
      (errorHandler sampleEnv malformedError daveReq 200).2.message_ar
        = some (MessageAr.str "رمز غير صالح") := by
  decide

/-! ## Registration -/

theorem roleIsIn_iff (role : Option String) :
    roleIsIn role = true ↔
      role = some "student" ∨ role = some "professor" ∨ role = some "teaching_assistant" := by
  cases role with
  | none => simp [roleIsIn, registerRoles]
  | some r => simp [roleIsIn, registerRoles]

theorem registerHandler_db (env : Env) (input : RegisterInput) (db : Db) (T : University) :
    (registerHandler env input db (some T)).db = db ∨
      (input.hasErrors = false ∧
        (registerHandler env input db (some T)).db
          = { db with users := db.users ++
                [{ id := env.uuidv4, university_id := T.id, email := input.email,
                   password := if input.password = "" then some input.password
                     else some (env.bcryptHash input.password),
                   role := input.role.getD "", is_active := true, last_login := none,
                   preferred_language := "ar" }] }) := by
  unfold registerHandler
  split
  · left; rfl
  · rename_i herr
    split
    · left; rfl
    · left; rfl
    · simp only
      split
      · left; rfl
      · rename_i user db' hc
        right
        refine ⟨by simpa using herr, ?_⟩
        simp only [Db.User_create] at hc
        split at hc
        · simp at hc
        · simp only [Option.some.injEq, Prod.mk.injEq] at hc
          exact hc.2.symm

/-- C27: the register route creates a user only when the requested role is `student`,
`professor` or `teaching_assistant`.  With a tenant resolved, any other role (`super_admin`,
`university_admin` and `dean` included) or a missing role is answered 400 `Validation failed`
and the database is left as it was; every user row the route adds has `university_id` equal to
the id of the tenant resolved on the request and the requested role, one of the three; and a
valid request for a new email (lookups and insert working) is answered 201 with exactly one such
row added. -/
theorem registerRoute_roles (env : Env) (input : RegisterInput) (db : Db) (req : Req) :
    (roleIsIn input.role = true ↔
        input.role = some "student" ∨ input.role = some "professor" ∨
          input.role = some "teaching_assistant") ∧
      roleIsIn (some "super_admin") = false ∧ roleIsIn (some "university_admin") = false ∧
      roleIsIn (some "dean") = false ∧ roleIsIn none = false ∧
      (∀ T : University, req.university = some T → roleIsIn input.role = false →
        registerRoute env input db req
          = { db := db, status := 400,
              body := { success := false, message := "Validation failed",
                        message_ar := "فشل التحقق", data := none } }) ∧
      (∀ u ∈ (registerRoute env input db req).db.users, u ∉ db.users →
        ∃ T : University, req.university = some T ∧ u.university_id = T.id ∧
          roleIsIn input.role = true ∧ input.role = some u.role) ∧
      (∀ T : University, req.university = some T → input.hasErrors = false →
        db.fails DbOp.User_findOne = false → db.fails DbOp.User_create = false →
        (∀ u ∈ db.users, u.email ≠ input.email) →
        (registerRoute env input db req).status = 201 ∧
        ∃ u : User, (registerRoute env input db req).db.users = db.users ++ [u] ∧
          u.university_id = T.id ∧ input.role = some u.role) := by
  refine ⟨roleIsIn_iff input.role, by decide, by decide, by decide, by decide, ?_, ?_, ?_⟩
  · intro T hT hrole
    simp [registerRoute, hT, registerHandler, RegisterInput.hasErrors, hrole, registerFail]
  · intro u hu hnew
    cases hT : req.university with
    | none =>
      simp only [registerRoute, hT, registerFail] at hu
      exact absurd hu hnew
    | some T =>
      simp only [registerRoute, hT] at hu
      rcases registerHandler_db env input db T with h | ⟨herr, h⟩
      · rw [h] at hu
        exact absurd hu hnew
      · rw [h] at hu
        simp only [List.mem_append, List.mem_singleton] at hu
        rcases hu with hu | hu
        · exact absurd hu hnew
        · have hrole : roleIsIn input.role = true := by
            simp only [RegisterInput.hasErrors, Bool.or_eq_false_iff, Bool.not_eq_false'] at herr
            exact herr.2
          refine ⟨T, rfl, by rw [hu], hrole, ?_⟩
          rw [hu]
          rcases (roleIsIn_iff input.role).1 hrole with hr | hr | hr <;> simp [hr]
  · intro T hT herr hok1 hok2 hnew
    have hrole : roleIsIn input.role = true := by
      simp only [RegisterInput.hasErrors, Bool.or_eq_false_iff, Bool.not_eq_false'] at herr
      exact herr.2
    have hf : db.users.find? (fun u => u.email == input.email) = none := by
      rw [List.find?_eq_none]
      intro u hu
      simpa using hnew u hu
    simp only [registerRoute, hT, registerHandler, herr, Bool.false_eq_true, if_false,
      Db.User_findOneByEmail, hok1, hf, Db.User_create, hok2]
    refine ⟨trivial, _, rfl, rfl, ?_⟩
    rcases (roleIsIn_iff input.role).1 hrole with hr | hr | hr <;> simp [hr]

/-! ## University update -/

theorem JsObject.get_of_mem (obj : JsObject) (hnd : (obj.map Prod.fst).Nodup)
    (kv : String × JsVal) (hkv : kv ∈ obj) : JsObject.get obj kv.1 = kv.2 := by
  induction obj with
  | nil => simp at hkv
  | cons a rest ih =>
    simp only [List.map_cons, List.nodup_cons] at hnd
    rcases List.mem_cons.1 hkv with h | h
    · subst h
      simp [JsObject.get, List.find?]
    · have hne : a.1 ≠ kv.1 := by
        intro he
        apply hnd.1
        rw [he]
        exact List.mem_map_of_mem Prod.fst h
      have hbeq : (a.1 == kv.1) = false := by simpa using hne
      have := ih hnd.2 h
      simp only [JsObject.get, List.find?, hbeq] at this ⊢
      exact this

theorem JsObject.set_new (obj : JsObject) (field : String) (value : JsVal)
    (h : field ∉ obj.map Prod.fst) : JsObject.set obj field value = obj ++ [(field, value)] := by
  have hany : obj.any (fun kv => kv.1 == field) = false := by
    rw [List.any_eq_false]
    intro kv hkv hbeq
    apply h
    have : kv.1 = field := by simpa using hbeq
    rw [← this]
    exact List.mem_map_of_mem Prod.fst hkv
  simp [JsObject.set, hany]

theorem UpdateData.assign_own (data : UpdateData) (field : String) (value : JsVal)
    (h : field ≠ "__proto__") :
    data.assign field value = { data with own := data.own.set field value } := by
  simp [UpdateData.assign, h]

theorem updateData_foldl (body : JsObject) (fields : List String) (data : UpdateData)
    (hnd : fields.Nodup) (hnew : ∀ f ∈ fields, f ∉ data.own.map Prod.fst)
    (hproto : "__proto__" ∉ fields) :
    fields.foldl
        (fun data field =>
          if body.get field != JsVal.undefined then data.assign field (body.get field) else data)
        data
      = { data with
          own := data.own ++ fields.filterMap (fun field =>
            if body.get field != JsVal.undefined then some (field, body.get field) else none) } := by
  induction fields generalizing data with
  | nil => simp
  | cons f rest ih =>
    simp only [List.nodup_cons] at hnd
    have hf : f ≠ "__proto__" := by
      intro he
      apply hproto
      rw [he]
      exact List.mem_cons_self _ _
    have hrest : "__proto__" ∉ rest := fun hm => hproto (List.mem_cons_of_mem f hm)
    simp only [List.foldl_cons, List.filterMap_cons]
    by_cases hv : (body.get f != JsVal.undefined) = true
    · simp only [hv, if_true]
      rw [UpdateData.assign_own data f _ hf,
        JsObject.set_new data.own f _ (hnew f (List.mem_cons_self f rest))]
      rw [ih { data with own := data.own ++ [(f, body.get f)] } hnd.2 ?_ hrest]
      · simp
      · intro g hg hmem
        simp only [List.map_append, List.map_cons, List.map_nil, List.mem_append,
          List.mem_singleton] at hmem
        rcases hmem with hmem | hmem
        · exact hnew g (List.mem_cons_of_mem f hg) hmem
        · rw [hmem] at hg
          exact hnd.1 hg
    · simp only [hv, Bool.false_eq_true, if_false]
      exact ih data hnd.2 (fun g hg => hnew g (List.mem_cons_of_mem f hg)) hrest

theorem filterMap_fields (body l : JsObject) (p : String → Bool)
    (hget : ∀ kv ∈ l, body.get kv.1 = kv.2) :
    ((l.map Prod.fst).filter p).filterMap (fun field =>
        if body.get field != JsVal.undefined then some (field, body.get field) else none)
      = l.filter (fun kv => p kv.1 && kv.2 != JsVal.undefined) := by
  induction l with
  | nil => simp
  | cons a rest ih =>
    have ha : body.get a.1 = a.2 := hget a (List.mem_cons_self a rest)
    have ih' := ih (fun kv hkv => hget kv (List.mem_cons_of_mem a hkv))
    simp only [List.map_cons, List.filter_cons]
    by_cases hp : p a.1 = true
    · simp only [hp, if_true, List.filterMap_cons, ha, Bool.true_and]
      by_cases hv : (a.2 != JsVal.undefined) = true
      · simp only [hv, if_true]
        rw [ih']
      · simp only [hv, Bool.false_eq_true, if_false]
        exact ih'
    · simp only [hp, Bool.false_eq_true, if_false, Bool.false_and]
      exact ih'

theorem updateData_eq_filter (role : String) (body : JsObject)
    (hnd : (body.map Prod.fst).Nodup) (hproto : "__proto__" ∉ body.map Prod.fst) :
    updateData role body
      = { own := body.filter (fun kv =>
            (role == "super_admin" || !criticalFields.contains kv.1) &&
              kv.2 != JsVal.undefined),
          proto := Prototype.objectPrototype } := by
  have hget := JsObject.get_of_mem body hnd
  unfold updateData allowedFields
  by_cases hr : (role == "super_admin") = true
  · simp only [hr, if_true, Bool.true_or]
    rw [updateData_foldl body _ UpdateData.empty hnd (by simp [UpdateData.empty]) hproto]
    have := filterMap_fields body body (fun _ => true) hget
    simp only [List.filter_true, Bool.true_and] at this
    simp only [UpdateData.empty, List.nil_append]
    congr 1
  · simp only [hr, Bool.false_eq_true, if_false, Bool.false_or]
    rw [updateData_foldl body _ UpdateData.empty (hnd.filter _) (by simp [UpdateData.empty])
      (fun hm => hproto (List.mem_of_mem_filter hm))]
    have := filterMap_fields body body (fun field => !criticalFields.contains field) hget
    simp only [UpdateData.empty, List.nil_append]
    congr 1

theorem updateUniversityHandler_allowed (write : University → UpdateData → Option University)
    (db : Db) (user : UserWithUniversity) (id : String) (body : JsObject)
    (university : University) (hfind : db.University_findByPk id = some (some university))
    (hallow : (user.role == "university_admin" && user.university_id != university.id) = false) :
    (updateUniversityHandler write db user id body).payload = some (updateData user.role body) ∧
      ∀ (university' : University) (db' : Db),
        db.University_update write university (updateData user.role body)
          = some (university', db') →
        (updateUniversityHandler write db user id body).response
          = { db := db', status := 200,
              body := { success := true, message := "University updated successfully",
                        message_ar := "تم تحديث الجامعة بنجاح",
                        university := some university' } } := by
  constructor
  · simp only [updateUniversityHandler, hfind, hallow, Bool.false_eq_true, if_false]
    split <;> rfl
  · intro university' db' hup
    simp only [updateUniversityHandler, hfind, hallow, Bool.false_eq_true, if_false, hup]

/-- The update handler on a body that has no key `__proto__` (body keys distinct, target
existing): a `university_admin` whose `university_id` differs from the target's id is answered
403 `Access denied` and nothing is updated; otherwise the payload passed to `university.update`
is a plain object whose properties are those of the body other than `code`, `domain`,
`is_active` and `subscription_plan` with a defined value; for a `super_admin` they are all the
properties of the body with a defined value. -/
theorem updateUniversityHandler_payload_without_proto
    (write : University → UpdateData → Option University) (db : Db) (user : UserWithUniversity)
    (id : String) (body : JsObject) (university : University)
    (hnd : (body.map Prod.fst).Nodup) (hproto : "__proto__" ∉ body.map Prod.fst)
    (hfind : db.University_findByPk id = some (some university)) :
    (user.role = "university_admin" → user.university_id ≠ university.id →
        updateUniversityHandler write db user id body
          = updateFail db 403 "Access denied" "الوصول مرفوض" none) ∧
      (user.role = "university_admin" → user.university_id = university.id →
        (updateUniversityHandler write db user id body).payload
          = some { own := body.filter (fun kv =>
                     !criticalFields.contains kv.1 && kv.2 != JsVal.undefined),
                   proto := Prototype.objectPrototype }) ∧
      (user.role = "super_admin" →
        (updateUniversityHandler write db user id body).payload
          = some { own := body.filter (fun kv => kv.2 != JsVal.undefined),
                   proto := Prototype.objectPrototype }) := by
  refine ⟨?_, ?_, ?_⟩
  · intro hr hdiff
    simp [updateUniversityHandler, hfind, hr, hdiff]
  · intro hr hsame
    have hallow : (user.role == "university_admin" && user.university_id != university.id)
        = false := by simp [hsame]
    rw [(updateUniversityHandler_allowed write db user id body university hfind hallow).1,
      updateData_eq_filter user.role body hnd hproto]
    simp [hr]
  · intro hr
    have hallow : (user.role == "university_admin" && user.university_id != university.id)
        = false := by simp [hr]
    rw [(updateUniversityHandler_allowed write db user id body university hfind hallow).1,
      updateData_eq_filter user.role body hnd hproto]
    simp [hr]

/-- C28 at its failing input: the university admin `frank` of `uniA` sends
`{"__proto__":{"code":"EVIL","is_active":false},"name":"University Alpha"}` to update `uniA`.
The key `__proto__` passes the filter and the assignment `updateData['__proto__'] = ...` makes
the body's object the prototype of the payload: the payload handed to `university.update` is not
the body restricted to its allowed keys (it has no own `__proto__`), its enumerable properties
include `code` and `is_active`, and with a write that walks them the record's `code` and
`is_active` are changed and the answer is 200. -/
theorem updateUniversityHandler_proto_payload :
    frank.role = "university_admin" ∧ frank.university_id = uniA.id ∧
      allowedFields frank.role protoUpdate = ["__proto__", "name"] ∧
      (updateUniversityHandler sampleWrite sampleDb { toUser := frank, university := some uniA }
          "u-A" protoUpdate).payload
        = some { own := [("name", JsVal.scalar (JsScalar.str "University Alpha"))],
                 proto := Prototype.object
                   [("code", JsScalar.str "EVIL"), ("is_active", JsScalar.bool false)] } ∧
      (updateData frank.role protoUpdate).enumerable
        = [("name", JsVal.scalar (JsScalar.str "University Alpha")),
           ("code", JsVal.scalar (JsScalar.str "EVIL")),
           ("is_active", JsVal.scalar (JsScalar.bool false))] ∧
      (updateUniversityHandler sampleWrite sampleDb { toUser := frank, university := some uniA }
          "u-A" protoUpdate).response.status = 200 ∧
      (updateUniversityHandler sampleWrite sampleDb { toUser := frank, university := some uniA }
          "u-A" protoUpdate).response.body.university
        = some { uniA with name := "University Alpha", code := "EVIL", is_active := false } := by
  decide

end ELearning
